import Mathlib

/-!
Verification of the SM64-style kinematic controller and area state machine
found in this repository.  The repository contains several near-duplicate
variants; the ones relevant to the claims are embedded here:

* `SM64.MPF`  — `src/mario64_physics_fixed.py` (Δt clamp, terminal-velocity
  clamp, five-ray predictive ground probe, unconditional void respawn,
  portal check without a star gate, warp that keeps courtyard entities
  enabled and does not reset velocity);
* `SM64.M641` — `src/Mario641.0.py` (no Δt clamp, no terminal-velocity clamp,
  single fixed-length ray, void respawn skipped in the basement, portal
  check with a star gate, exclusive warp sweep that zeroes velocity);
* `SM64.MIPS` — `src/mips.py` (no Δt clamp, single short ray, no void check,
  jump with no chain guard and a fixed impulse).

All machine floats are modelled by exact rationals (`ℚ`); the engine's
ray-cast, distance and input collaborators are modelled as explicit
parameters, exactly as §6 of the spec describes them.
-/

namespace SM64

/-- 3D vector of rationals, modelling ursina's `Vec3` of floats. -/
structure Vec3 where
  x : ℚ
  y : ℚ
  z : ℚ
deriving DecidableEq, Repr

/-- The ray-cast collaborator (spec §6): a downward ray from `origin` with a
maximum distance, answering the hit point's height, or `none` when nothing
collidable is hit in range.  The callers below only ever cast straight down,
so the direction argument of the engine primitive is left implicit. -/
abbrev RayCast : Type := Vec3 → ℚ → Option ℚ

/-- A scene with no collidable geometry in ray range ("no ground detected"). -/
def noGround : RayCast := fun _ _ => none

/-- A scene consisting of one flat collidable floor at height `H`: a downward
ray from `origin` hits it exactly when the origin is at or above the floor
and the floor is within the ray's maximum distance. -/
def flatFloor (H : ℚ) : RayCast := fun origin dist =>
  if H ≤ origin.y ∧ origin.y - H ≤ dist then some H else none

/-- The per-tick input collaborator for the variants whose keys are
WASD + shift + space.  `move` is `some` of the normalized horizontal
direction produced from the held movement keys (the engine normalizes the
raw key vector), or `none` when no movement key is held. -/
structure Input where
  move : Option (ℚ × ℚ)
  shift : Bool
  space : Bool
deriving Repr

/-- Zero input: no movement keys, no run modifier, no jump. -/
def noInput : Input := ⟨none, false, false⟩

/-- Jump key held, everything else released. -/
def spaceInput : Input := ⟨none, false, true⟩

/-- A painting portal's data: target course and unlock threshold
(`PaintingPortal.__init__` in both variant files). -/
structure Portal where
  course_name : String
  star_requirement : ℕ
deriving DecidableEq, Repr

/-- Pickup state used by the coin/star collection loops: the entity's
enabled flag together with the counter the pickup increments. -/
structure PickupState where
  enabled : Bool
  counter : ℕ
deriving DecidableEq, Repr

/-- One tick of the pickup check, from the collection loops
(`Mario641.0.py` lines 1197-1201, `mips.py` lines 438-442):
`if coin.enabled and distance(mario.position, coin.position) < radius:`
`coin.enabled = False; mario.coins += 1`.  The engine's distance value for
this tick is the parameter `dist`. -/
def pickup_tick (radius dist : ℚ) (s : PickupState) : PickupState :=
  if s.enabled = true ∧ dist < radius then ⟨false, s.counter + 1⟩ else s

/-- The pickup check repeated over consecutive ticks whose distance samples
are `dists`. -/
def pickup_run (radius : ℚ) (dists : List ℚ) (s : PickupState) : PickupState :=
  dists.foldl (fun st d => pickup_tick radius d st) s

namespace MPF

/-! Model of `src/mario64_physics_fixed.py`. -/

def WALK_SPEED : ℚ := 5
def RUN_SPEED : ℚ := 10
def JUMP_POWER : ℚ := 12
def GRAVITY : ℚ := 25

/-- Mario's mutable fields (`Mario.__init__`). -/
structure MarioState where
  pos : Vec3
  vel : Vec3
  on_ground : Bool
  jump_chain : ℕ
  coins : ℕ
  stars : ℕ
  current_area : String
deriving DecidableEq, Repr

/-- The state `Mario()` is constructed in: position `(0,2,0)`, zero velocity,
airborne, chain 0, in the courtyard. -/
def init : MarioState :=
  ⟨⟨0, 2, 0⟩, ⟨0, 0, 0⟩, false, 0, 0, 0, "courtyard"⟩

/-- `dt = min(dt, 0.05)` — the 50 ms physics-step cap (line 40). -/
def dtClamp (dt : ℚ) : ℚ := min dt (1/20)

/-- `speed = RUN_SPEED if keys['shift'] else WALK_SPEED`. -/
def speed (inp : Input) : ℚ := if inp.shift then RUN_SPEED else WALK_SPEED

/-- Horizontal movement block (lines 43-52): when a movement key is held the
normalized direction is applied at walk/run speed; `y` is untouched. -/
def movePhase (inp : Input) (dt : ℚ) (s : MarioState) : MarioState :=
  match inp.move with
  | some m =>
      { s with pos := ⟨s.pos.x + m.1 * speed inp * dt, s.pos.y,
                       s.pos.z + m.2 * speed inp * dt⟩ }
  | none => s

/-- Gravity integration with the terminal-velocity clamp (lines 55-58):
`self.vel.y -= GRAVITY * dt; self.vel.y = max(self.vel.y, -50)`. -/
def gravVel (dt vy : ℚ) : ℚ := max (vy - GRAVITY * dt) (-50)

/-- The five ray origins' offsets from the body centre (lines 64-70). -/
def ray_offsets : List Vec3 :=
  [⟨0, 1/2, 0⟩, ⟨2/5, 1/2, 2/5⟩, ⟨-(2/5), 1/2, 2/5⟩,
   ⟨2/5, 1/2, -(2/5)⟩, ⟨-(2/5), 1/2, -(2/5)⟩]

/-- The multi-ray scan (lines 72-86): cast all five rays, keep the hit with
the highest ground point; `highest_ground` starts at the sentinel `-999`. -/
def groundScan (rc : RayCast) (pos : Vec3) (dist : ℚ) : Option ℚ × ℚ :=
  ray_offsets.foldl
    (fun acc off =>
      match rc ⟨pos.x + off.x, pos.y + off.y, pos.z + off.z⟩ dist with
      | some hy => if acc.2 < hy then (some hy, hy) else acc
      | none => acc)
    (none, -999)

/-- Movement, gravity, and ground-collision resolution (lines 40-106): the
predicted vertical position is compared against the snapped ground height
`highest_ground + 0.9`, with the ray length `abs(vel.y * dt) + 1.5`. -/
def groundPhase (rc : RayCast) (inp : Input) (dt0 : ℚ) (s0 : MarioState) :
    MarioState :=
  let dt := dtClamp dt0
  let s := movePhase inp dt s0
  let vy := gravVel dt s.vel.y
  let py := s.pos.y + vy * dt
  match (groundScan rc s.pos (|vy * dt| + 3/2)).1 with
  | some hg =>
      if py ≤ hg + 9/10 ∧ vy ≤ 0 then
        { s with pos := ⟨s.pos.x, hg + 9/10, s.pos.z⟩,
                 vel := ⟨s.vel.x, 0, s.vel.z⟩,
                 on_ground := true, jump_chain := 0 }
      else
        { s with pos := ⟨s.pos.x, py, s.pos.z⟩,
                 vel := ⟨s.vel.x, vy, s.vel.z⟩, on_ground := false }
  | none =>
      { s with pos := ⟨s.pos.x, py, s.pos.z⟩,
               vel := ⟨s.vel.x, vy, s.vel.z⟩, on_ground := false }

/-- The jump block (lines 109-112): only when space is held, the body is on
the ground and the chain counter is below 2; the impulse gets the 1.2 factor
exactly when the counter equals 1. -/
def jumpPhase (inp : Input) (s : MarioState) : MarioState :=
  if inp.space = true ∧ s.on_ground = true ∧ s.jump_chain < 2 then
    { s with vel := ⟨s.vel.x, JUMP_POWER * (if s.jump_chain = 1 then 6/5 else 1),
                     s.vel.z⟩,
             jump_chain := s.jump_chain + 1, on_ground := false }
  else s

/-- Everything the tick does before the out-of-bounds check. -/
def preVoid (rc : RayCast) (inp : Input) (dt : ℚ) (s : MarioState) :
    MarioState :=
  jumpPhase inp (groundPhase rc inp dt s)

/-- Out-of-bounds reset (lines 115-117): below `y = -5` the body is put back
at `(0,10,0)` with zero velocity, with no further condition. -/
def voidPhase (s : MarioState) : MarioState :=
  if s.pos.y < -5 then { s with pos := ⟨0, 10, 0⟩, vel := ⟨0, 0, 0⟩ } else s

/-- One whole `Mario.update` tick. -/
def update (rc : RayCast) (inp : Input) (dt : ℚ) (s : MarioState) :
    MarioState :=
  voidPhase (preVoid rc inp dt s)

/-- A tick with zero input ("coasting"), against a scene with no ground. -/
def coast (dt : ℚ) : MarioState → MarioState := update noGround noInput dt

/-- The impulse the jump block writes into `vel.y` this tick, if the jump
fires: the observable by which "the 1.2× second-jump branch runs" is stated. -/
def jumpImpulseUsed (rc : RayCast) (inp : Input) (dt : ℚ) (s : MarioState) :
    Option ℚ :=
  let g := groundPhase rc inp dt s
  if inp.space = true ∧ g.on_ground = true ∧ g.jump_chain < 2 then
    some (JUMP_POWER * (if g.jump_chain = 1 then 6/5 else 1))
  else none

/-- The update iterated over a list of per-tick Δt samples. -/
def run (rc : RayCast) (inp : Input) (dts : List ℚ) (s : MarioState) :
    MarioState :=
  dts.foldl (fun st d => update rc inp d st) s

/-- A body resting on a flat floor of height `H`: centre at `H` plus the 0.9
half height, zero velocity, grounded, chain 0. -/
def rest (H x z : ℚ) : MarioState :=
  ⟨⟨x, H + 9/10, z⟩, ⟨0, 0, 0⟩, true, 0, 0, 0, "courtyard"⟩

/-- States reachable from the constructed Mario, under arbitrary per-tick
inputs, Δt samples and scene geometry. -/
inductive Reachable : MarioState → Prop
  | init : Reachable init
  | step (rc : RayCast) (inp : Input) (dt : ℚ) {s : MarioState} :
      Reachable s → Reachable (update rc inp dt s)

end MPF

namespace M641

/-! Model of `src/Mario641.0.py`. -/

def WALK_SPEED : ℚ := 5
def RUN_SPEED : ℚ := 10
def JUMP_POWER : ℚ := 12
def GRAVITY : ℚ := 25

/-- Mario's mutable fields (`Mario.__init__`). -/
structure MarioState where
  pos : Vec3
  vel : Vec3
  on_ground : Bool
  jump_chain : ℕ
  coins : ℕ
  stars : ℕ
  bunnies_caught : ℕ
  current_course : String
deriving DecidableEq, Repr

/-- The state `Mario()` is constructed in. -/
def init : MarioState :=
  ⟨⟨0, 2, 0⟩, ⟨0, 0, 0⟩, false, 0, 0, 0, 0, "castle_grounds"⟩

/-- This variant's per-tick input: the WASD keys' normalized direction plus
the walking-bob sample `sin(time.time() * 10) * 0.1` that the move branch
adds to `y` (line 91-92), modelled as a host-supplied value. -/
structure Input where
  move : Option (ℚ × ℚ)
  bob : ℚ
  shift : Bool
  space : Bool
deriving Repr

/-- Zero input for this variant. -/
def noInput : Input := ⟨none, 0, false, false⟩

/-- Jump key held, everything else released. -/
def spaceInput : Input := ⟨none, 0, false, true⟩

/-- `speed = RUN_SPEED if keys['shift'] else WALK_SPEED`. -/
def speed (inp : Input) : ℚ := if inp.shift then RUN_SPEED else WALK_SPEED

/-- Horizontal movement with the walking-bob animation (lines 82-92). -/
def movePhase (inp : Input) (dt : ℚ) (s : MarioState) : MarioState :=
  match inp.move with
  | some m =>
      { s with pos := ⟨s.pos.x + m.1 * speed inp * dt, s.pos.y + inp.bob * dt,
                       s.pos.z + m.2 * speed inp * dt⟩ }
  | none => s

/-- Gravity and position integration (lines 95-96): `self.vel.y -= GRAVITY*dt`
with no terminal clamp, then `self.position += self.vel * dt`. -/
def physPhase (dt : ℚ) (s : MarioState) : MarioState :=
  let vel : Vec3 := ⟨s.vel.x, s.vel.y - GRAVITY * dt, s.vel.z⟩
  { s with vel := vel,
           pos := ⟨s.pos.x + vel.x * dt, s.pos.y + vel.y * dt,
                   s.pos.z + vel.z * dt⟩ }

/-- Ground collision (lines 99-108): one ray from `position + (0,0.5,0)` with
fixed length 1.5; on a hit with non-positive fall velocity the body snaps to
the hit point plus 0.9 and the chain resets; on a hit with positive velocity
nothing is assigned (the grounded flag is retained); on a miss the body is
marked airborne. -/
def groundPhase (rc : RayCast) (s : MarioState) : MarioState :=
  match rc ⟨s.pos.x, s.pos.y + 1/2, s.pos.z⟩ (3/2) with
  | some hy =>
      if s.vel.y ≤ 0 then
        { s with pos := ⟨s.pos.x, hy + 9/10, s.pos.z⟩,
                 vel := ⟨s.vel.x, 0, s.vel.z⟩,
                 on_ground := true, jump_chain := 0 }
      else s
  | none => { s with on_ground := false }

/-- The jump block (lines 111-114), identical to the fixed variant's. -/
def jumpPhase (inp : Input) (s : MarioState) : MarioState :=
  if inp.space = true ∧ s.on_ground = true ∧ s.jump_chain < 2 then
    { s with vel := ⟨s.vel.x, JUMP_POWER * (if s.jump_chain = 1 then 6/5 else 1),
                     s.vel.z⟩,
             jump_chain := s.jump_chain + 1, on_ground := false }
  else s

/-- Everything the tick does before the water/lava reset. -/
def preVoid (rc : RayCast) (inp : Input) (dt : ℚ) (s : MarioState) :
    MarioState :=
  jumpPhase inp (groundPhase rc (physPhase dt (movePhase inp dt s)))

/-- Water/lava reset (lines 117-119): fires below `y = -5` only outside the
basement course. -/
def voidPhase (s : MarioState) : MarioState :=
  if s.pos.y < -5 ∧ s.current_course ≠ "basement" then
    { s with pos := ⟨0, 10, 0⟩, vel := ⟨0, 0, 0⟩ }
  else s

/-- One whole `Mario.update` tick. -/
def update (rc : RayCast) (inp : Input) (dt : ℚ) (s : MarioState) :
    MarioState :=
  voidPhase (preVoid rc inp dt s)

/-- A tick with zero input, against a scene with no ground. -/
def coast (dt : ℚ) : MarioState → MarioState := update noGround noInput dt

/-- The impulse the jump block writes into `vel.y` this tick, if it fires. -/
def jumpImpulseUsed (rc : RayCast) (inp : Input) (dt : ℚ) (s : MarioState) :
    Option ℚ :=
  let g := groundPhase rc (physPhase (dt) (movePhase inp dt s))
  if inp.space = true ∧ g.on_ground = true ∧ g.jump_chain < 2 then
    some (JUMP_POWER * (if g.jump_chain = 1 then 6/5 else 1))
  else none

/-- A body resting on a flat floor of height `H` in this variant. -/
def rest (H x z : ℚ) : MarioState :=
  ⟨⟨x, H + 9/10, z⟩, ⟨0, 0, 0⟩, true, 0, 0, 0, 0, "castle_grounds"⟩

/-- States reachable from the constructed Mario. -/
inductive Reachable : MarioState → Prop
  | init : Reachable init
  | step (rc : RayCast) (inp : Input) (dt : ℚ) {s : MarioState} :
      Reachable s → Reachable (update rc inp dt s)

/-- The per-course decorative entity sets known to `warp_to_course`
(lines 1156-1160), keyed by course name. -/
def known_courses : List String :=
  ["castle_grounds", "bobomb_battlefield", "whomp_fortress"]

/-- The game state `warp_to_course` touches: Mario plus, for each course
name, the shared enabled flag of that course's entity set. -/
structure GameState where
  mario : MarioState
  enabled : String → Bool

/-- `warp_to_course` (lines 1151-1166): set the current course, move Mario to
`(0,5,0)`, zero his velocity, and sweep every known course's entity set,
enabling exactly the target's. -/
def warp_to_course (course_name : String) (g : GameState) : GameState :=
  { mario := { g.mario with current_course := course_name,
                            pos := ⟨0, 5, 0⟩, vel := ⟨0, 0, 0⟩ },
    enabled := fun n =>
      if n ∈ known_courses then decide (n = course_name) else g.enabled n }

/-- The per-painting portal check from the frame callback (lines 1210-1213):
the warp fires only when the painting is enabled, the engine distance is
below 2.5, the star counter meets the painting's requirement and the
interact key is held. -/
def portal_step (p : Portal) (p_on : Bool) (dist : ℚ) (e_held : Bool)
    (g : GameState) : GameState :=
  if p_on = true ∧ dist < 5/2 ∧ p.star_requirement ≤ g.mario.stars ∧
      e_held = true then
    warp_to_course p.course_name g
  else g

end M641

namespace MIPS

/-! Model of `src/mips.py`. -/

def WALK_SPEED : ℚ := 5
def RUN_SPEED : ℚ := 10
def JUMP_POWER : ℚ := 10
def GRAVITY : ℚ := 20

/-- Mario's mutable fields (`Mario.__init__`). -/
structure MarioState where
  pos : Vec3
  vel : Vec3
  on_ground : Bool
  jump_chain : ℕ
  coins : ℕ
  stars : ℕ
deriving DecidableEq, Repr

/-- The state `Mario()` is constructed in. -/
def init : MarioState := ⟨⟨0, 2, 0⟩, ⟨0, 0, 0⟩, false, 0, 0, 0⟩

/-- `speed = RUN_SPEED if keys['shift'] else WALK_SPEED`. -/
def speed (inp : Input) : ℚ := if inp.shift then RUN_SPEED else WALK_SPEED

/-- Horizontal movement (lines 43-48). -/
def movePhase (inp : Input) (dt : ℚ) (s : MarioState) : MarioState :=
  match inp.move with
  | some m =>
      { s with pos := ⟨s.pos.x + m.1 * speed inp * dt, s.pos.y,
                       s.pos.z + m.2 * speed inp * dt⟩ }
  | none => s

/-- Gravity and position integration (lines 51-52), no clamps. -/
def physPhase (dt : ℚ) (s : MarioState) : MarioState :=
  let vel : Vec3 := ⟨s.vel.x, s.vel.y - GRAVITY * dt, s.vel.z⟩
  { s with vel := vel,
           pos := ⟨s.pos.x + vel.x * dt, s.pos.y + vel.y * dt,
                   s.pos.z + vel.z * dt⟩ }

/-- Ground collision (lines 55-63): one ray from the body centre with fixed
length 1.1; the snap needs strictly negative fall velocity; on a hit with
`vel.y ≥ 0` nothing is assigned; on a miss the body is marked airborne. -/
def groundPhase (rc : RayCast) (s : MarioState) : MarioState :=
  match rc s.pos (11/10) with
  | some hy =>
      if s.vel.y < 0 then
        { s with pos := ⟨s.pos.x, hy + 9/10, s.pos.z⟩,
                 vel := ⟨s.vel.x, 0, s.vel.z⟩,
                 on_ground := true, jump_chain := 0 }
      else s
  | none => { s with on_ground := false }

/-- The jump block (lines 66-69): no chain guard and a fixed impulse; the
chain counter is still incremented. -/
def jumpPhase (inp : Input) (s : MarioState) : MarioState :=
  if inp.space = true ∧ s.on_ground = true then
    { s with vel := ⟨s.vel.x, JUMP_POWER, s.vel.z⟩,
             jump_chain := s.jump_chain + 1, on_ground := false }
  else s

/-- One whole `Mario.update` tick; this variant has no out-of-bounds check. -/
def update (rc : RayCast) (inp : Input) (dt : ℚ) (s : MarioState) :
    MarioState :=
  jumpPhase inp (groundPhase rc (physPhase dt (movePhase inp dt s)))

/-- A tick with zero input, against a scene with no ground. -/
def coast (dt : ℚ) : MarioState → MarioState := update noGround noInput dt

end MIPS

namespace MPF

/-- The per-course entity groups known to this variant's `warp_to_course`
(lines 177-183). -/
def known_courses : List String :=
  ["courtyard", "bobomb_battlefield", "whomp_fortress", "jolly_roger_bay",
   "cool_cool_mountain"]

/-- The game state `warp_to_course` touches in this variant. -/
structure GameState where
  mario : MarioState
  enabled : String → Bool

/-- `warp_to_course` (lines 174-187): set the current area, move Mario to
`(0,5,0)` and sweep the known entity groups with
`e.enabled = (name == course_name or name == "courtyard")`; Mario's velocity
is not touched. -/
def warp_to_course (course_name : String) (g : GameState) : GameState :=
  { mario := { g.mario with current_area := course_name, pos := ⟨0, 5, 0⟩ },
    enabled := fun n =>
      if n ∈ known_courses then decide (n = course_name ∨ n = "courtyard")
      else g.enabled n }

/-- The per-painting portal check from the frame callback (lines 195-197):
only proximity and the interact key are tested; the painting's
`star_requirement` is never consulted. -/
def portal_step (p : Portal) (dist : ℚ) (e_held : Bool) (g : GameState) :
    GameState :=
  if dist < 5/2 ∧ e_held = true then warp_to_course p.course_name g else g

/-- One tick standing on a flat floor at height 0 with the jump key held,
at the 50 fps frame time `1/20`. -/
def jump_tick : MarioState → MarioState := update (flatFloor 0) spaceInput (1/20)

/-- One tick on the same floor with no keys held. -/
def coast_tick : MarioState → MarioState := update (flatFloor 0) noInput (1/20)

/-- First jump of the chained-jump scenario: jump issued from rest on the
floor. -/
def jump1 : MarioState := jump_tick (rest 0 0 0)

/-- Second jump, issued on the very tick the body re-lands (18 input-free
ticks after the first jump the body is still airborne; on the 19th it lands
and the held jump key fires in the same tick). -/
def jump2 : MarioState := jump_tick (coast_tick^[18] jump1)

/-- Third jump, issued the same way on the next re-landing tick. -/
def jump3 : MarioState := jump_tick (coast_tick^[18] jump2)

/-- A Mario already below the void threshold. -/
def deepState : MarioState :=
  ⟨⟨0, -10, 0⟩, ⟨0, 0, 0⟩, false, 0, 0, 0, "courtyard"⟩

/-- The session's initial game state: Mario as constructed, the courtyard
group enabled and every course group disabled (lines 150-158). -/
def gInit : GameState := ⟨init, fun n => decide (n = "courtyard")⟩

/-- The initial game state except that Mario is falling at `vel.y = -7`. -/
def gMoving : GameState :=
  ⟨{ init with vel := ⟨0, -7, 0⟩ }, fun n => decide (n = "courtyard")⟩

/-- `PaintingPortal("whomp_fortress", 1, ...)` from line 163. -/
def whomp_painting : Portal := ⟨"whomp_fortress", 1⟩

/-- The jump-chain invariant of C10: the counter never exceeds 1 and is 0
whenever the body is grounded. -/
def ChainInv (s : MarioState) : Prop :=
  s.jump_chain ≤ 1 ∧ (s.on_ground = true → s.jump_chain = 0)

end MPF

namespace M641

/-- The update iterated over a list of per-tick Δt samples. -/
def run (rc : RayCast) (inp : Input) (dts : List ℚ) (s : MarioState) :
    MarioState :=
  dts.foldl (fun st d => update rc inp d st) s

/-- One tick standing on a flat floor at height 0 with the jump key held. -/
def jump_tick : MarioState → MarioState := update (flatFloor 0) spaceInput (1/20)

/-- One tick on the same floor with no keys held. -/
def coast_tick : MarioState → MarioState := update (flatFloor 0) noInput (1/20)

/-- First jump of the chained-jump scenario in this variant. -/
def jump1 : MarioState := jump_tick (rest 0 0 0)

/-- Second jump, issued on the re-landing tick (18 input-free ticks after
the first jump the body is still airborne; on the 19th it lands and the
held jump key fires in the same tick). -/
def jump2 : MarioState := jump_tick (coast_tick^[18] jump1)

/-- Third jump, issued the same way on the next re-landing tick. -/
def jump3 : MarioState := jump_tick (coast_tick^[18] jump2)

/-- A Mario far above the void threshold, at rest: position `(0,100,0)`. -/
def highStart : MarioState :=
  ⟨⟨0, 100, 0⟩, ⟨0, 0, 0⟩, false, 0, 0, 0, 0, "castle_grounds"⟩

/-- A Mario in the basement course, already below the void threshold. -/
def basementState : MarioState :=
  ⟨⟨0, -10, 0⟩, ⟨0, 0, 0⟩, false, 0, 0, 0, 0, "basement"⟩

/-- The session's initial game state: Mario as constructed, the castle
grounds enabled and both course groups disabled (lines 1107-1113). -/
def gInit : GameState := ⟨init, fun n => decide (n = "castle_grounds")⟩

/-- `PaintingPortal("whomp_fortress", 3, ...)` from line 1117. -/
def whomp_painting : Portal := ⟨"whomp_fortress", 3⟩

/-- The jump-chain invariant of C10 for this variant. -/
def ChainInv (s : MarioState) : Prop :=
  s.jump_chain ≤ 1 ∧ (s.on_ground = true → s.jump_chain = 0)

end M641

end SM64

namespace SM64

/-! Ground-truth evaluations of the concrete scenario runs.  Each step
lemma evaluates one tick of the relevant update on explicit states; the
assembly lemmas chain them through the iterated runs. -/

set_option maxRecDepth 4000

section ConcreteRuns

attribute [local semireducible] Rat.add Rat.mul Rat.sub Rat.inv

theorem restF_eq : MPF.rest 0 0 0 = (⟨⟨((0:ℚ)/1), ((9:ℚ)/10), ((0:ℚ)/1)⟩, ⟨((0:ℚ)/1), ((0:ℚ)/1), ((0:ℚ)/1)⟩, true, 0, 0, 0, "courtyard"⟩ : MPF.MarioState) := by decide

theorem restB_eq : M641.rest 0 0 0 = (⟨⟨((0:ℚ)/1), ((9:ℚ)/10), ((0:ℚ)/1)⟩, ⟨((0:ℚ)/1), ((0:ℚ)/1), ((0:ℚ)/1)⟩, true, 0, 0, 0, 0, "castle_grounds"⟩ : M641.MarioState) := by decide

theorem initF_eq : MPF.init = (⟨⟨((0:ℚ)/1), ((2:ℚ)/1), ((0:ℚ)/1)⟩, ⟨((0:ℚ)/1), ((0:ℚ)/1), ((0:ℚ)/1)⟩, false, 0, 0, 0, "courtyard"⟩ : MPF.MarioState) := by decide

theorem initM_eq : MIPS.init = (⟨⟨((0:ℚ)/1), ((2:ℚ)/1), ((0:ℚ)/1)⟩, ⟨((0:ℚ)/1), ((0:ℚ)/1), ((0:ℚ)/1)⟩, false, 0, 0, 0⟩ : MIPS.MarioState) := by decide

theorem highB_eq : M641.highStart = (⟨⟨((0:ℚ)/1), ((100:ℚ)/1), ((0:ℚ)/1)⟩, ⟨((0:ℚ)/1), ((0:ℚ)/1), ((0:ℚ)/1)⟩, false, 0, 0, 0, 0, "castle_grounds"⟩ : M641.MarioState) := by decide

theorem stepA1 : MPF.jump_tick (⟨⟨((0:ℚ)/1), ((9:ℚ)/10), ((0:ℚ)/1)⟩, ⟨((0:ℚ)/1), ((0:ℚ)/1), ((0:ℚ)/1)⟩, true, 0, 0, 0, "courtyard"⟩ : MPF.MarioState) = ⟨⟨((0:ℚ)/1), ((9:ℚ)/10), ((0:ℚ)/1)⟩, ⟨((0:ℚ)/1), ((12:ℚ)/1), ((0:ℚ)/1)⟩, false, 1, 0, 0, "courtyard"⟩ := by decide

theorem stepA2 : MPF.coast_tick (⟨⟨((0:ℚ)/1), ((9:ℚ)/10), ((0:ℚ)/1)⟩, ⟨((0:ℚ)/1), ((12:ℚ)/1), ((0:ℚ)/1)⟩, false, 1, 0, 0, "courtyard"⟩ : MPF.MarioState) = ⟨⟨((0:ℚ)/1), ((23:ℚ)/16), ((0:ℚ)/1)⟩, ⟨((0:ℚ)/1), ((43:ℚ)/4), ((0:ℚ)/1)⟩, false, 1, 0, 0, "courtyard"⟩ := by decide

theorem stepA3 : MPF.coast_tick (⟨⟨((0:ℚ)/1), ((23:ℚ)/16), ((0:ℚ)/1)⟩, ⟨((0:ℚ)/1), ((43:ℚ)/4), ((0:ℚ)/1)⟩, false, 1, 0, 0, "courtyard"⟩ : MPF.MarioState) = ⟨⟨((0:ℚ)/1), ((153:ℚ)/80), ((0:ℚ)/1)⟩, ⟨((0:ℚ)/1), ((19:ℚ)/2), ((0:ℚ)/1)⟩, false, 1, 0, 0, "courtyard"⟩ := by decide

theorem stepA4 : MPF.coast_tick (⟨⟨((0:ℚ)/1), ((153:ℚ)/80), ((0:ℚ)/1)⟩, ⟨((0:ℚ)/1), ((19:ℚ)/2), ((0:ℚ)/1)⟩, false, 1, 0, 0, "courtyard"⟩ : MPF.MarioState) = ⟨⟨((0:ℚ)/1), ((93:ℚ)/40), ((0:ℚ)/1)⟩, ⟨((0:ℚ)/1), ((33:ℚ)/4), ((0:ℚ)/1)⟩, false, 1, 0, 0, "courtyard"⟩ := by decide

theorem stepA5 : MPF.coast_tick (⟨⟨((0:ℚ)/1), ((93:ℚ)/40), ((0:ℚ)/1)⟩, ⟨((0:ℚ)/1), ((33:ℚ)/4), ((0:ℚ)/1)⟩, false, 1, 0, 0, "courtyard"⟩ : MPF.MarioState) = ⟨⟨((0:ℚ)/1), ((107:ℚ)/40), ((0:ℚ)/1)⟩, ⟨((0:ℚ)/1), ((7:ℚ)/1), ((0:ℚ)/1)⟩, false, 1, 0, 0, "courtyard"⟩ := by decide

theorem stepA6 : MPF.coast_tick (⟨⟨((0:ℚ)/1), ((107:ℚ)/40), ((0:ℚ)/1)⟩, ⟨((0:ℚ)/1), ((7:ℚ)/1), ((0:ℚ)/1)⟩, false, 1, 0, 0, "courtyard"⟩ : MPF.MarioState) = ⟨⟨((0:ℚ)/1), ((237:ℚ)/80), ((0:ℚ)/1)⟩, ⟨((0:ℚ)/1), ((23:ℚ)/4), ((0:ℚ)/1)⟩, false, 1, 0, 0, "courtyard"⟩ := by decide

theorem stepA7 : MPF.coast_tick (⟨⟨((0:ℚ)/1), ((237:ℚ)/80), ((0:ℚ)/1)⟩, ⟨((0:ℚ)/1), ((23:ℚ)/4), ((0:ℚ)/1)⟩, false, 1, 0, 0, "courtyard"⟩ : MPF.MarioState) = ⟨⟨((0:ℚ)/1), ((51:ℚ)/16), ((0:ℚ)/1)⟩, ⟨((0:ℚ)/1), ((9:ℚ)/2), ((0:ℚ)/1)⟩, false, 1, 0, 0, "courtyard"⟩ := by decide

theorem stepA8 : MPF.coast_tick (⟨⟨((0:ℚ)/1), ((51:ℚ)/16), ((0:ℚ)/1)⟩, ⟨((0:ℚ)/1), ((9:ℚ)/2), ((0:ℚ)/1)⟩, false, 1, 0, 0, "courtyard"⟩ : MPF.MarioState) = ⟨⟨((0:ℚ)/1), ((67:ℚ)/20), ((0:ℚ)/1)⟩, ⟨((0:ℚ)/1), ((13:ℚ)/4), ((0:ℚ)/1)⟩, false, 1, 0, 0, "courtyard"⟩ := by decide

theorem stepA9 : MPF.coast_tick (⟨⟨((0:ℚ)/1), ((67:ℚ)/20), ((0:ℚ)/1)⟩, ⟨((0:ℚ)/1), ((13:ℚ)/4), ((0:ℚ)/1)⟩, false, 1, 0, 0, "courtyard"⟩ : MPF.MarioState) = ⟨⟨((0:ℚ)/1), ((69:ℚ)/20), ((0:ℚ)/1)⟩, ⟨((0:ℚ)/1), ((2:ℚ)/1), ((0:ℚ)/1)⟩, false, 1, 0, 0, "courtyard"⟩ := by decide

theorem stepA10 : MPF.coast_tick (⟨⟨((0:ℚ)/1), ((69:ℚ)/20), ((0:ℚ)/1)⟩, ⟨((0:ℚ)/1), ((2:ℚ)/1), ((0:ℚ)/1)⟩, false, 1, 0, 0, "courtyard"⟩ : MPF.MarioState) = ⟨⟨((0:ℚ)/1), ((279:ℚ)/80), ((0:ℚ)/1)⟩, ⟨((0:ℚ)/1), ((3:ℚ)/4), ((0:ℚ)/1)⟩, false, 1, 0, 0, "courtyard"⟩ := by decide

theorem stepA11 : MPF.coast_tick (⟨⟨((0:ℚ)/1), ((279:ℚ)/80), ((0:ℚ)/1)⟩, ⟨((0:ℚ)/1), ((3:ℚ)/4), ((0:ℚ)/1)⟩, false, 1, 0, 0, "courtyard"⟩ : MPF.MarioState) = ⟨⟨((0:ℚ)/1), ((277:ℚ)/80), ((0:ℚ)/1)⟩, ⟨((0:ℚ)/1), (-(1:ℚ)/2), ((0:ℚ)/1)⟩, false, 1, 0, 0, "courtyard"⟩ := by decide

theorem stepA12 : MPF.coast_tick (⟨⟨((0:ℚ)/1), ((277:ℚ)/80), ((0:ℚ)/1)⟩, ⟨((0:ℚ)/1), (-(1:ℚ)/2), ((0:ℚ)/1)⟩, false, 1, 0, 0, "courtyard"⟩ : MPF.MarioState) = ⟨⟨((0:ℚ)/1), ((27:ℚ)/8), ((0:ℚ)/1)⟩, ⟨((0:ℚ)/1), (-(7:ℚ)/4), ((0:ℚ)/1)⟩, false, 1, 0, 0, "courtyard"⟩ := by decide

theorem stepA13 : MPF.coast_tick (⟨⟨((0:ℚ)/1), ((27:ℚ)/8), ((0:ℚ)/1)⟩, ⟨((0:ℚ)/1), (-(7:ℚ)/4), ((0:ℚ)/1)⟩, false, 1, 0, 0, "courtyard"⟩ : MPF.MarioState) = ⟨⟨((0:ℚ)/1), ((129:ℚ)/40), ((0:ℚ)/1)⟩, ⟨((0:ℚ)/1), (-(3:ℚ)/1), ((0:ℚ)/1)⟩, false, 1, 0, 0, "courtyard"⟩ := by decide

theorem stepA14 : MPF.coast_tick (⟨⟨((0:ℚ)/1), ((129:ℚ)/40), ((0:ℚ)/1)⟩, ⟨((0:ℚ)/1), (-(3:ℚ)/1), ((0:ℚ)/1)⟩, false, 1, 0, 0, "courtyard"⟩ : MPF.MarioState) = ⟨⟨((0:ℚ)/1), ((241:ℚ)/80), ((0:ℚ)/1)⟩, ⟨((0:ℚ)/1), (-(17:ℚ)/4), ((0:ℚ)/1)⟩, false, 1, 0, 0, "courtyard"⟩ := by decide

theorem stepA15 : MPF.coast_tick (⟨⟨((0:ℚ)/1), ((241:ℚ)/80), ((0:ℚ)/1)⟩, ⟨((0:ℚ)/1), (-(17:ℚ)/4), ((0:ℚ)/1)⟩, false, 1, 0, 0, "courtyard"⟩ : MPF.MarioState) = ⟨⟨((0:ℚ)/1), ((219:ℚ)/80), ((0:ℚ)/1)⟩, ⟨((0:ℚ)/1), (-(11:ℚ)/2), ((0:ℚ)/1)⟩, false, 1, 0, 0, "courtyard"⟩ := by decide

theorem stepA16 : MPF.coast_tick (⟨⟨((0:ℚ)/1), ((219:ℚ)/80), ((0:ℚ)/1)⟩, ⟨((0:ℚ)/1), (-(11:ℚ)/2), ((0:ℚ)/1)⟩, false, 1, 0, 0, "courtyard"⟩ : MPF.MarioState) = ⟨⟨((0:ℚ)/1), ((12:ℚ)/5), ((0:ℚ)/1)⟩, ⟨((0:ℚ)/1), (-(27:ℚ)/4), ((0:ℚ)/1)⟩, false, 1, 0, 0, "courtyard"⟩ := by decide

theorem stepA17 : MPF.coast_tick (⟨⟨((0:ℚ)/1), ((12:ℚ)/5), ((0:ℚ)/1)⟩, ⟨((0:ℚ)/1), (-(27:ℚ)/4), ((0:ℚ)/1)⟩, false, 1, 0, 0, "courtyard"⟩ : MPF.MarioState) = ⟨⟨((0:ℚ)/1), ((2:ℚ)/1), ((0:ℚ)/1)⟩, ⟨((0:ℚ)/1), (-(8:ℚ)/1), ((0:ℚ)/1)⟩, false, 1, 0, 0, "courtyard"⟩ := by decide

theorem stepA18 : MPF.coast_tick (⟨⟨((0:ℚ)/1), ((2:ℚ)/1), ((0:ℚ)/1)⟩, ⟨((0:ℚ)/1), (-(8:ℚ)/1), ((0:ℚ)/1)⟩, false, 1, 0, 0, "courtyard"⟩ : MPF.MarioState) = ⟨⟨((0:ℚ)/1), ((123:ℚ)/80), ((0:ℚ)/1)⟩, ⟨((0:ℚ)/1), (-(37:ℚ)/4), ((0:ℚ)/1)⟩, false, 1, 0, 0, "courtyard"⟩ := by decide

theorem stepA19 : MPF.coast_tick (⟨⟨((0:ℚ)/1), ((123:ℚ)/80), ((0:ℚ)/1)⟩, ⟨((0:ℚ)/1), (-(37:ℚ)/4), ((0:ℚ)/1)⟩, false, 1, 0, 0, "courtyard"⟩ : MPF.MarioState) = ⟨⟨((0:ℚ)/1), ((81:ℚ)/80), ((0:ℚ)/1)⟩, ⟨((0:ℚ)/1), (-(21:ℚ)/2), ((0:ℚ)/1)⟩, false, 1, 0, 0, "courtyard"⟩ := by decide

theorem stepA20 : MPF.jump_tick (⟨⟨((0:ℚ)/1), ((81:ℚ)/80), ((0:ℚ)/1)⟩, ⟨((0:ℚ)/1), (-(21:ℚ)/2), ((0:ℚ)/1)⟩, false, 1, 0, 0, "courtyard"⟩ : MPF.MarioState) = ⟨⟨((0:ℚ)/1), ((9:ℚ)/10), ((0:ℚ)/1)⟩, ⟨((0:ℚ)/1), ((12:ℚ)/1), ((0:ℚ)/1)⟩, false, 1, 0, 0, "courtyard"⟩ := by decide

theorem stepA21 : MPF.coast_tick (⟨⟨((0:ℚ)/1), ((9:ℚ)/10), ((0:ℚ)/1)⟩, ⟨((0:ℚ)/1), ((12:ℚ)/1), ((0:ℚ)/1)⟩, false, 1, 0, 0, "courtyard"⟩ : MPF.MarioState) = ⟨⟨((0:ℚ)/1), ((23:ℚ)/16), ((0:ℚ)/1)⟩, ⟨((0:ℚ)/1), ((43:ℚ)/4), ((0:ℚ)/1)⟩, false, 1, 0, 0, "courtyard"⟩ := by decide

theorem stepA22 : MPF.coast_tick (⟨⟨((0:ℚ)/1), ((23:ℚ)/16), ((0:ℚ)/1)⟩, ⟨((0:ℚ)/1), ((43:ℚ)/4), ((0:ℚ)/1)⟩, false, 1, 0, 0, "courtyard"⟩ : MPF.MarioState) = ⟨⟨((0:ℚ)/1), ((153:ℚ)/80), ((0:ℚ)/1)⟩, ⟨((0:ℚ)/1), ((19:ℚ)/2), ((0:ℚ)/1)⟩, false, 1, 0, 0, "courtyard"⟩ := by decide

theorem stepA23 : MPF.coast_tick (⟨⟨((0:ℚ)/1), ((153:ℚ)/80), ((0:ℚ)/1)⟩, ⟨((0:ℚ)/1), ((19:ℚ)/2), ((0:ℚ)/1)⟩, false, 1, 0, 0, "courtyard"⟩ : MPF.MarioState) = ⟨⟨((0:ℚ)/1), ((93:ℚ)/40), ((0:ℚ)/1)⟩, ⟨((0:ℚ)/1), ((33:ℚ)/4), ((0:ℚ)/1)⟩, false, 1, 0, 0, "courtyard"⟩ := by decide

theorem stepA24 : MPF.coast_tick (⟨⟨((0:ℚ)/1), ((93:ℚ)/40), ((0:ℚ)/1)⟩, ⟨((0:ℚ)/1), ((33:ℚ)/4), ((0:ℚ)/1)⟩, false, 1, 0, 0, "courtyard"⟩ : MPF.MarioState) = ⟨⟨((0:ℚ)/1), ((107:ℚ)/40), ((0:ℚ)/1)⟩, ⟨((0:ℚ)/1), ((7:ℚ)/1), ((0:ℚ)/1)⟩, false, 1, 0, 0, "courtyard"⟩ := by decide

theorem stepA25 : MPF.coast_tick (⟨⟨((0:ℚ)/1), ((107:ℚ)/40), ((0:ℚ)/1)⟩, ⟨((0:ℚ)/1), ((7:ℚ)/1), ((0:ℚ)/1)⟩, false, 1, 0, 0, "courtyard"⟩ : MPF.MarioState) = ⟨⟨((0:ℚ)/1), ((237:ℚ)/80), ((0:ℚ)/1)⟩, ⟨((0:ℚ)/1), ((23:ℚ)/4), ((0:ℚ)/1)⟩, false, 1, 0, 0, "courtyard"⟩ := by decide

theorem stepA26 : MPF.coast_tick (⟨⟨((0:ℚ)/1), ((237:ℚ)/80), ((0:ℚ)/1)⟩, ⟨((0:ℚ)/1), ((23:ℚ)/4), ((0:ℚ)/1)⟩, false, 1, 0, 0, "courtyard"⟩ : MPF.MarioState) = ⟨⟨((0:ℚ)/1), ((51:ℚ)/16), ((0:ℚ)/1)⟩, ⟨((0:ℚ)/1), ((9:ℚ)/2), ((0:ℚ)/1)⟩, false, 1, 0, 0, "courtyard"⟩ := by decide

theorem stepA27 : MPF.coast_tick (⟨⟨((0:ℚ)/1), ((51:ℚ)/16), ((0:ℚ)/1)⟩, ⟨((0:ℚ)/1), ((9:ℚ)/2), ((0:ℚ)/1)⟩, false, 1, 0, 0, "courtyard"⟩ : MPF.MarioState) = ⟨⟨((0:ℚ)/1), ((67:ℚ)/20), ((0:ℚ)/1)⟩, ⟨((0:ℚ)/1), ((13:ℚ)/4), ((0:ℚ)/1)⟩, false, 1, 0, 0, "courtyard"⟩ := by decide

theorem stepA28 : MPF.coast_tick (⟨⟨((0:ℚ)/1), ((67:ℚ)/20), ((0:ℚ)/1)⟩, ⟨((0:ℚ)/1), ((13:ℚ)/4), ((0:ℚ)/1)⟩, false, 1, 0, 0, "courtyard"⟩ : MPF.MarioState) = ⟨⟨((0:ℚ)/1), ((69:ℚ)/20), ((0:ℚ)/1)⟩, ⟨((0:ℚ)/1), ((2:ℚ)/1), ((0:ℚ)/1)⟩, false, 1, 0, 0, "courtyard"⟩ := by decide

theorem stepA29 : MPF.coast_tick (⟨⟨((0:ℚ)/1), ((69:ℚ)/20), ((0:ℚ)/1)⟩, ⟨((0:ℚ)/1), ((2:ℚ)/1), ((0:ℚ)/1)⟩, false, 1, 0, 0, "courtyard"⟩ : MPF.MarioState) = ⟨⟨((0:ℚ)/1), ((279:ℚ)/80), ((0:ℚ)/1)⟩, ⟨((0:ℚ)/1), ((3:ℚ)/4), ((0:ℚ)/1)⟩, false, 1, 0, 0, "courtyard"⟩ := by decide

theorem stepA30 : MPF.coast_tick (⟨⟨((0:ℚ)/1), ((279:ℚ)/80), ((0:ℚ)/1)⟩, ⟨((0:ℚ)/1), ((3:ℚ)/4), ((0:ℚ)/1)⟩, false, 1, 0, 0, "courtyard"⟩ : MPF.MarioState) = ⟨⟨((0:ℚ)/1), ((277:ℚ)/80), ((0:ℚ)/1)⟩, ⟨((0:ℚ)/1), (-(1:ℚ)/2), ((0:ℚ)/1)⟩, false, 1, 0, 0, "courtyard"⟩ := by decide

theorem stepA31 : MPF.coast_tick (⟨⟨((0:ℚ)/1), ((277:ℚ)/80), ((0:ℚ)/1)⟩, ⟨((0:ℚ)/1), (-(1:ℚ)/2), ((0:ℚ)/1)⟩, false, 1, 0, 0, "courtyard"⟩ : MPF.MarioState) = ⟨⟨((0:ℚ)/1), ((27:ℚ)/8), ((0:ℚ)/1)⟩, ⟨((0:ℚ)/1), (-(7:ℚ)/4), ((0:ℚ)/1)⟩, false, 1, 0, 0, "courtyard"⟩ := by decide

theorem stepA32 : MPF.coast_tick (⟨⟨((0:ℚ)/1), ((27:ℚ)/8), ((0:ℚ)/1)⟩, ⟨((0:ℚ)/1), (-(7:ℚ)/4), ((0:ℚ)/1)⟩, false, 1, 0, 0, "courtyard"⟩ : MPF.MarioState) = ⟨⟨((0:ℚ)/1), ((129:ℚ)/40), ((0:ℚ)/1)⟩, ⟨((0:ℚ)/1), (-(3:ℚ)/1), ((0:ℚ)/1)⟩, false, 1, 0, 0, "courtyard"⟩ := by decide

theorem stepA33 : MPF.coast_tick (⟨⟨((0:ℚ)/1), ((129:ℚ)/40), ((0:ℚ)/1)⟩, ⟨((0:ℚ)/1), (-(3:ℚ)/1), ((0:ℚ)/1)⟩, false, 1, 0, 0, "courtyard"⟩ : MPF.MarioState) = ⟨⟨((0:ℚ)/1), ((241:ℚ)/80), ((0:ℚ)/1)⟩, ⟨((0:ℚ)/1), (-(17:ℚ)/4), ((0:ℚ)/1)⟩, false, 1, 0, 0, "courtyard"⟩ := by decide

theorem stepA34 : MPF.coast_tick (⟨⟨((0:ℚ)/1), ((241:ℚ)/80), ((0:ℚ)/1)⟩, ⟨((0:ℚ)/1), (-(17:ℚ)/4), ((0:ℚ)/1)⟩, false, 1, 0, 0, "courtyard"⟩ : MPF.MarioState) = ⟨⟨((0:ℚ)/1), ((219:ℚ)/80), ((0:ℚ)/1)⟩, ⟨((0:ℚ)/1), (-(11:ℚ)/2), ((0:ℚ)/1)⟩, false, 1, 0, 0, "courtyard"⟩ := by decide

theorem stepA35 : MPF.coast_tick (⟨⟨((0:ℚ)/1), ((219:ℚ)/80), ((0:ℚ)/1)⟩, ⟨((0:ℚ)/1), (-(11:ℚ)/2), ((0:ℚ)/1)⟩, false, 1, 0, 0, "courtyard"⟩ : MPF.MarioState) = ⟨⟨((0:ℚ)/1), ((12:ℚ)/5), ((0:ℚ)/1)⟩, ⟨((0:ℚ)/1), (-(27:ℚ)/4), ((0:ℚ)/1)⟩, false, 1, 0, 0, "courtyard"⟩ := by decide

theorem stepA36 : MPF.coast_tick (⟨⟨((0:ℚ)/1), ((12:ℚ)/5), ((0:ℚ)/1)⟩, ⟨((0:ℚ)/1), (-(27:ℚ)/4), ((0:ℚ)/1)⟩, false, 1, 0, 0, "courtyard"⟩ : MPF.MarioState) = ⟨⟨((0:ℚ)/1), ((2:ℚ)/1), ((0:ℚ)/1)⟩, ⟨((0:ℚ)/1), (-(8:ℚ)/1), ((0:ℚ)/1)⟩, false, 1, 0, 0, "courtyard"⟩ := by decide

theorem stepA37 : MPF.coast_tick (⟨⟨((0:ℚ)/1), ((2:ℚ)/1), ((0:ℚ)/1)⟩, ⟨((0:ℚ)/1), (-(8:ℚ)/1), ((0:ℚ)/1)⟩, false, 1, 0, 0, "courtyard"⟩ : MPF.MarioState) = ⟨⟨((0:ℚ)/1), ((123:ℚ)/80), ((0:ℚ)/1)⟩, ⟨((0:ℚ)/1), (-(37:ℚ)/4), ((0:ℚ)/1)⟩, false, 1, 0, 0, "courtyard"⟩ := by decide

theorem stepA38 : MPF.coast_tick (⟨⟨((0:ℚ)/1), ((123:ℚ)/80), ((0:ℚ)/1)⟩, ⟨((0:ℚ)/1), (-(37:ℚ)/4), ((0:ℚ)/1)⟩, false, 1, 0, 0, "courtyard"⟩ : MPF.MarioState) = ⟨⟨((0:ℚ)/1), ((81:ℚ)/80), ((0:ℚ)/1)⟩, ⟨((0:ℚ)/1), (-(21:ℚ)/2), ((0:ℚ)/1)⟩, false, 1, 0, 0, "courtyard"⟩ := by decide

theorem stepA39 : MPF.jump_tick (⟨⟨((0:ℚ)/1), ((81:ℚ)/80), ((0:ℚ)/1)⟩, ⟨((0:ℚ)/1), (-(21:ℚ)/2), ((0:ℚ)/1)⟩, false, 1, 0, 0, "courtyard"⟩ : MPF.MarioState) = ⟨⟨((0:ℚ)/1), ((9:ℚ)/10), ((0:ℚ)/1)⟩, ⟨((0:ℚ)/1), ((12:ℚ)/1), ((0:ℚ)/1)⟩, false, 1, 0, 0, "courtyard"⟩ := by decide

theorem stepB1 : M641.jump_tick (⟨⟨((0:ℚ)/1), ((9:ℚ)/10), ((0:ℚ)/1)⟩, ⟨((0:ℚ)/1), ((0:ℚ)/1), ((0:ℚ)/1)⟩, true, 0, 0, 0, 0, "castle_grounds"⟩ : M641.MarioState) = ⟨⟨((0:ℚ)/1), ((9:ℚ)/10), ((0:ℚ)/1)⟩, ⟨((0:ℚ)/1), ((12:ℚ)/1), ((0:ℚ)/1)⟩, false, 1, 0, 0, 0, "castle_grounds"⟩ := by decide

theorem stepB2 : M641.coast_tick (⟨⟨((0:ℚ)/1), ((9:ℚ)/10), ((0:ℚ)/1)⟩, ⟨((0:ℚ)/1), ((12:ℚ)/1), ((0:ℚ)/1)⟩, false, 1, 0, 0, 0, "castle_grounds"⟩ : M641.MarioState) = ⟨⟨((0:ℚ)/1), ((23:ℚ)/16), ((0:ℚ)/1)⟩, ⟨((0:ℚ)/1), ((43:ℚ)/4), ((0:ℚ)/1)⟩, false, 1, 0, 0, 0, "castle_grounds"⟩ := by decide

theorem stepB3 : M641.coast_tick (⟨⟨((0:ℚ)/1), ((23:ℚ)/16), ((0:ℚ)/1)⟩, ⟨((0:ℚ)/1), ((43:ℚ)/4), ((0:ℚ)/1)⟩, false, 1, 0, 0, 0, "castle_grounds"⟩ : M641.MarioState) = ⟨⟨((0:ℚ)/1), ((153:ℚ)/80), ((0:ℚ)/1)⟩, ⟨((0:ℚ)/1), ((19:ℚ)/2), ((0:ℚ)/1)⟩, false, 1, 0, 0, 0, "castle_grounds"⟩ := by decide

theorem stepB4 : M641.coast_tick (⟨⟨((0:ℚ)/1), ((153:ℚ)/80), ((0:ℚ)/1)⟩, ⟨((0:ℚ)/1), ((19:ℚ)/2), ((0:ℚ)/1)⟩, false, 1, 0, 0, 0, "castle_grounds"⟩ : M641.MarioState) = ⟨⟨((0:ℚ)/1), ((93:ℚ)/40), ((0:ℚ)/1)⟩, ⟨((0:ℚ)/1), ((33:ℚ)/4), ((0:ℚ)/1)⟩, false, 1, 0, 0, 0, "castle_grounds"⟩ := by decide

theorem stepB5 : M641.coast_tick (⟨⟨((0:ℚ)/1), ((93:ℚ)/40), ((0:ℚ)/1)⟩, ⟨((0:ℚ)/1), ((33:ℚ)/4), ((0:ℚ)/1)⟩, false, 1, 0, 0, 0, "castle_grounds"⟩ : M641.MarioState) = ⟨⟨((0:ℚ)/1), ((107:ℚ)/40), ((0:ℚ)/1)⟩, ⟨((0:ℚ)/1), ((7:ℚ)/1), ((0:ℚ)/1)⟩, false, 1, 0, 0, 0, "castle_grounds"⟩ := by decide

theorem stepB6 : M641.coast_tick (⟨⟨((0:ℚ)/1), ((107:ℚ)/40), ((0:ℚ)/1)⟩, ⟨((0:ℚ)/1), ((7:ℚ)/1), ((0:ℚ)/1)⟩, false, 1, 0, 0, 0, "castle_grounds"⟩ : M641.MarioState) = ⟨⟨((0:ℚ)/1), ((237:ℚ)/80), ((0:ℚ)/1)⟩, ⟨((0:ℚ)/1), ((23:ℚ)/4), ((0:ℚ)/1)⟩, false, 1, 0, 0, 0, "castle_grounds"⟩ := by decide

theorem stepB7 : M641.coast_tick (⟨⟨((0:ℚ)/1), ((237:ℚ)/80), ((0:ℚ)/1)⟩, ⟨((0:ℚ)/1), ((23:ℚ)/4), ((0:ℚ)/1)⟩, false, 1, 0, 0, 0, "castle_grounds"⟩ : M641.MarioState) = ⟨⟨((0:ℚ)/1), ((51:ℚ)/16), ((0:ℚ)/1)⟩, ⟨((0:ℚ)/1), ((9:ℚ)/2), ((0:ℚ)/1)⟩, false, 1, 0, 0, 0, "castle_grounds"⟩ := by decide

theorem stepB8 : M641.coast_tick (⟨⟨((0:ℚ)/1), ((51:ℚ)/16), ((0:ℚ)/1)⟩, ⟨((0:ℚ)/1), ((9:ℚ)/2), ((0:ℚ)/1)⟩, false, 1, 0, 0, 0, "castle_grounds"⟩ : M641.MarioState) = ⟨⟨((0:ℚ)/1), ((67:ℚ)/20), ((0:ℚ)/1)⟩, ⟨((0:ℚ)/1), ((13:ℚ)/4), ((0:ℚ)/1)⟩, false, 1, 0, 0, 0, "castle_grounds"⟩ := by decide

theorem stepB9 : M641.coast_tick (⟨⟨((0:ℚ)/1), ((67:ℚ)/20), ((0:ℚ)/1)⟩, ⟨((0:ℚ)/1), ((13:ℚ)/4), ((0:ℚ)/1)⟩, false, 1, 0, 0, 0, "castle_grounds"⟩ : M641.MarioState) = ⟨⟨((0:ℚ)/1), ((69:ℚ)/20), ((0:ℚ)/1)⟩, ⟨((0:ℚ)/1), ((2:ℚ)/1), ((0:ℚ)/1)⟩, false, 1, 0, 0, 0, "castle_grounds"⟩ := by decide

theorem stepB10 : M641.coast_tick (⟨⟨((0:ℚ)/1), ((69:ℚ)/20), ((0:ℚ)/1)⟩, ⟨((0:ℚ)/1), ((2:ℚ)/1), ((0:ℚ)/1)⟩, false, 1, 0, 0, 0, "castle_grounds"⟩ : M641.MarioState) = ⟨⟨((0:ℚ)/1), ((279:ℚ)/80), ((0:ℚ)/1)⟩, ⟨((0:ℚ)/1), ((3:ℚ)/4), ((0:ℚ)/1)⟩, false, 1, 0, 0, 0, "castle_grounds"⟩ := by decide

theorem stepB11 : M641.coast_tick (⟨⟨((0:ℚ)/1), ((279:ℚ)/80), ((0:ℚ)/1)⟩, ⟨((0:ℚ)/1), ((3:ℚ)/4), ((0:ℚ)/1)⟩, false, 1, 0, 0, 0, "castle_grounds"⟩ : M641.MarioState) = ⟨⟨((0:ℚ)/1), ((277:ℚ)/80), ((0:ℚ)/1)⟩, ⟨((0:ℚ)/1), (-(1:ℚ)/2), ((0:ℚ)/1)⟩, false, 1, 0, 0, 0, "castle_grounds"⟩ := by decide

theorem stepB12 : M641.coast_tick (⟨⟨((0:ℚ)/1), ((277:ℚ)/80), ((0:ℚ)/1)⟩, ⟨((0:ℚ)/1), (-(1:ℚ)/2), ((0:ℚ)/1)⟩, false, 1, 0, 0, 0, "castle_grounds"⟩ : M641.MarioState) = ⟨⟨((0:ℚ)/1), ((27:ℚ)/8), ((0:ℚ)/1)⟩, ⟨((0:ℚ)/1), (-(7:ℚ)/4), ((0:ℚ)/1)⟩, false, 1, 0, 0, 0, "castle_grounds"⟩ := by decide

theorem stepB13 : M641.coast_tick (⟨⟨((0:ℚ)/1), ((27:ℚ)/8), ((0:ℚ)/1)⟩, ⟨((0:ℚ)/1), (-(7:ℚ)/4), ((0:ℚ)/1)⟩, false, 1, 0, 0, 0, "castle_grounds"⟩ : M641.MarioState) = ⟨⟨((0:ℚ)/1), ((129:ℚ)/40), ((0:ℚ)/1)⟩, ⟨((0:ℚ)/1), (-(3:ℚ)/1), ((0:ℚ)/1)⟩, false, 1, 0, 0, 0, "castle_grounds"⟩ := by decide

theorem stepB14 : M641.coast_tick (⟨⟨((0:ℚ)/1), ((129:ℚ)/40), ((0:ℚ)/1)⟩, ⟨((0:ℚ)/1), (-(3:ℚ)/1), ((0:ℚ)/1)⟩, false, 1, 0, 0, 0, "castle_grounds"⟩ : M641.MarioState) = ⟨⟨((0:ℚ)/1), ((241:ℚ)/80), ((0:ℚ)/1)⟩, ⟨((0:ℚ)/1), (-(17:ℚ)/4), ((0:ℚ)/1)⟩, false, 1, 0, 0, 0, "castle_grounds"⟩ := by decide

theorem stepB15 : M641.coast_tick (⟨⟨((0:ℚ)/1), ((241:ℚ)/80), ((0:ℚ)/1)⟩, ⟨((0:ℚ)/1), (-(17:ℚ)/4), ((0:ℚ)/1)⟩, false, 1, 0, 0, 0, "castle_grounds"⟩ : M641.MarioState) = ⟨⟨((0:ℚ)/1), ((219:ℚ)/80), ((0:ℚ)/1)⟩, ⟨((0:ℚ)/1), (-(11:ℚ)/2), ((0:ℚ)/1)⟩, false, 1, 0, 0, 0, "castle_grounds"⟩ := by decide

theorem stepB16 : M641.coast_tick (⟨⟨((0:ℚ)/1), ((219:ℚ)/80), ((0:ℚ)/1)⟩, ⟨((0:ℚ)/1), (-(11:ℚ)/2), ((0:ℚ)/1)⟩, false, 1, 0, 0, 0, "castle_grounds"⟩ : M641.MarioState) = ⟨⟨((0:ℚ)/1), ((12:ℚ)/5), ((0:ℚ)/1)⟩, ⟨((0:ℚ)/1), (-(27:ℚ)/4), ((0:ℚ)/1)⟩, false, 1, 0, 0, 0, "castle_grounds"⟩ := by decide

theorem stepB17 : M641.coast_tick (⟨⟨((0:ℚ)/1), ((12:ℚ)/5), ((0:ℚ)/1)⟩, ⟨((0:ℚ)/1), (-(27:ℚ)/4), ((0:ℚ)/1)⟩, false, 1, 0, 0, 0, "castle_grounds"⟩ : M641.MarioState) = ⟨⟨((0:ℚ)/1), ((2:ℚ)/1), ((0:ℚ)/1)⟩, ⟨((0:ℚ)/1), (-(8:ℚ)/1), ((0:ℚ)/1)⟩, false, 1, 0, 0, 0, "castle_grounds"⟩ := by decide

theorem stepB18 : M641.coast_tick (⟨⟨((0:ℚ)/1), ((2:ℚ)/1), ((0:ℚ)/1)⟩, ⟨((0:ℚ)/1), (-(8:ℚ)/1), ((0:ℚ)/1)⟩, false, 1, 0, 0, 0, "castle_grounds"⟩ : M641.MarioState) = ⟨⟨((0:ℚ)/1), ((123:ℚ)/80), ((0:ℚ)/1)⟩, ⟨((0:ℚ)/1), (-(37:ℚ)/4), ((0:ℚ)/1)⟩, false, 1, 0, 0, 0, "castle_grounds"⟩ := by decide

theorem stepB19 : M641.coast_tick (⟨⟨((0:ℚ)/1), ((123:ℚ)/80), ((0:ℚ)/1)⟩, ⟨((0:ℚ)/1), (-(37:ℚ)/4), ((0:ℚ)/1)⟩, false, 1, 0, 0, 0, "castle_grounds"⟩ : M641.MarioState) = ⟨⟨((0:ℚ)/1), ((81:ℚ)/80), ((0:ℚ)/1)⟩, ⟨((0:ℚ)/1), (-(21:ℚ)/2), ((0:ℚ)/1)⟩, false, 1, 0, 0, 0, "castle_grounds"⟩ := by decide

theorem stepB20 : M641.jump_tick (⟨⟨((0:ℚ)/1), ((81:ℚ)/80), ((0:ℚ)/1)⟩, ⟨((0:ℚ)/1), (-(21:ℚ)/2), ((0:ℚ)/1)⟩, false, 1, 0, 0, 0, "castle_grounds"⟩ : M641.MarioState) = ⟨⟨((0:ℚ)/1), ((9:ℚ)/10), ((0:ℚ)/1)⟩, ⟨((0:ℚ)/1), ((12:ℚ)/1), ((0:ℚ)/1)⟩, false, 1, 0, 0, 0, "castle_grounds"⟩ := by decide

theorem stepB21 : M641.coast_tick (⟨⟨((0:ℚ)/1), ((9:ℚ)/10), ((0:ℚ)/1)⟩, ⟨((0:ℚ)/1), ((12:ℚ)/1), ((0:ℚ)/1)⟩, false, 1, 0, 0, 0, "castle_grounds"⟩ : M641.MarioState) = ⟨⟨((0:ℚ)/1), ((23:ℚ)/16), ((0:ℚ)/1)⟩, ⟨((0:ℚ)/1), ((43:ℚ)/4), ((0:ℚ)/1)⟩, false, 1, 0, 0, 0, "castle_grounds"⟩ := by decide

theorem stepB22 : M641.coast_tick (⟨⟨((0:ℚ)/1), ((23:ℚ)/16), ((0:ℚ)/1)⟩, ⟨((0:ℚ)/1), ((43:ℚ)/4), ((0:ℚ)/1)⟩, false, 1, 0, 0, 0, "castle_grounds"⟩ : M641.MarioState) = ⟨⟨((0:ℚ)/1), ((153:ℚ)/80), ((0:ℚ)/1)⟩, ⟨((0:ℚ)/1), ((19:ℚ)/2), ((0:ℚ)/1)⟩, false, 1, 0, 0, 0, "castle_grounds"⟩ := by decide

theorem stepB23 : M641.coast_tick (⟨⟨((0:ℚ)/1), ((153:ℚ)/80), ((0:ℚ)/1)⟩, ⟨((0:ℚ)/1), ((19:ℚ)/2), ((0:ℚ)/1)⟩, false, 1, 0, 0, 0, "castle_grounds"⟩ : M641.MarioState) = ⟨⟨((0:ℚ)/1), ((93:ℚ)/40), ((0:ℚ)/1)⟩, ⟨((0:ℚ)/1), ((33:ℚ)/4), ((0:ℚ)/1)⟩, false, 1, 0, 0, 0, "castle_grounds"⟩ := by decide

theorem stepB24 : M641.coast_tick (⟨⟨((0:ℚ)/1), ((93:ℚ)/40), ((0:ℚ)/1)⟩, ⟨((0:ℚ)/1), ((33:ℚ)/4), ((0:ℚ)/1)⟩, false, 1, 0, 0, 0, "castle_grounds"⟩ : M641.MarioState) = ⟨⟨((0:ℚ)/1), ((107:ℚ)/40), ((0:ℚ)/1)⟩, ⟨((0:ℚ)/1), ((7:ℚ)/1), ((0:ℚ)/1)⟩, false, 1, 0, 0, 0, "castle_grounds"⟩ := by decide

theorem stepB25 : M641.coast_tick (⟨⟨((0:ℚ)/1), ((107:ℚ)/40), ((0:ℚ)/1)⟩, ⟨((0:ℚ)/1), ((7:ℚ)/1), ((0:ℚ)/1)⟩, false, 1, 0, 0, 0, "castle_grounds"⟩ : M641.MarioState) = ⟨⟨((0:ℚ)/1), ((237:ℚ)/80), ((0:ℚ)/1)⟩, ⟨((0:ℚ)/1), ((23:ℚ)/4), ((0:ℚ)/1)⟩, false, 1, 0, 0, 0, "castle_grounds"⟩ := by decide

theorem stepB26 : M641.coast_tick (⟨⟨((0:ℚ)/1), ((237:ℚ)/80), ((0:ℚ)/1)⟩, ⟨((0:ℚ)/1), ((23:ℚ)/4), ((0:ℚ)/1)⟩, false, 1, 0, 0, 0, "castle_grounds"⟩ : M641.MarioState) = ⟨⟨((0:ℚ)/1), ((51:ℚ)/16), ((0:ℚ)/1)⟩, ⟨((0:ℚ)/1), ((9:ℚ)/2), ((0:ℚ)/1)⟩, false, 1, 0, 0, 0, "castle_grounds"⟩ := by decide

theorem stepB27 : M641.coast_tick (⟨⟨((0:ℚ)/1), ((51:ℚ)/16), ((0:ℚ)/1)⟩, ⟨((0:ℚ)/1), ((9:ℚ)/2), ((0:ℚ)/1)⟩, false, 1, 0, 0, 0, "castle_grounds"⟩ : M641.MarioState) = ⟨⟨((0:ℚ)/1), ((67:ℚ)/20), ((0:ℚ)/1)⟩, ⟨((0:ℚ)/1), ((13:ℚ)/4), ((0:ℚ)/1)⟩, false, 1, 0, 0, 0, "castle_grounds"⟩ := by decide

theorem stepB28 : M641.coast_tick (⟨⟨((0:ℚ)/1), ((67:ℚ)/20), ((0:ℚ)/1)⟩, ⟨((0:ℚ)/1), ((13:ℚ)/4), ((0:ℚ)/1)⟩, false, 1, 0, 0, 0, "castle_grounds"⟩ : M641.MarioState) = ⟨⟨((0:ℚ)/1), ((69:ℚ)/20), ((0:ℚ)/1)⟩, ⟨((0:ℚ)/1), ((2:ℚ)/1), ((0:ℚ)/1)⟩, false, 1, 0, 0, 0, "castle_grounds"⟩ := by decide

theorem stepB29 : M641.coast_tick (⟨⟨((0:ℚ)/1), ((69:ℚ)/20), ((0:ℚ)/1)⟩, ⟨((0:ℚ)/1), ((2:ℚ)/1), ((0:ℚ)/1)⟩, false, 1, 0, 0, 0, "castle_grounds"⟩ : M641.MarioState) = ⟨⟨((0:ℚ)/1), ((279:ℚ)/80), ((0:ℚ)/1)⟩, ⟨((0:ℚ)/1), ((3:ℚ)/4), ((0:ℚ)/1)⟩, false, 1, 0, 0, 0, "castle_grounds"⟩ := by decide

theorem stepB30 : M641.coast_tick (⟨⟨((0:ℚ)/1), ((279:ℚ)/80), ((0:ℚ)/1)⟩, ⟨((0:ℚ)/1), ((3:ℚ)/4), ((0:ℚ)/1)⟩, false, 1, 0, 0, 0, "castle_grounds"⟩ : M641.MarioState) = ⟨⟨((0:ℚ)/1), ((277:ℚ)/80), ((0:ℚ)/1)⟩, ⟨((0:ℚ)/1), (-(1:ℚ)/2), ((0:ℚ)/1)⟩, false, 1, 0, 0, 0, "castle_grounds"⟩ := by decide

theorem stepB31 : M641.coast_tick (⟨⟨((0:ℚ)/1), ((277:ℚ)/80), ((0:ℚ)/1)⟩, ⟨((0:ℚ)/1), (-(1:ℚ)/2), ((0:ℚ)/1)⟩, false, 1, 0, 0, 0, "castle_grounds"⟩ : M641.MarioState) = ⟨⟨((0:ℚ)/1), ((27:ℚ)/8), ((0:ℚ)/1)⟩, ⟨((0:ℚ)/1), (-(7:ℚ)/4), ((0:ℚ)/1)⟩, false, 1, 0, 0, 0, "castle_grounds"⟩ := by decide

theorem stepB32 : M641.coast_tick (⟨⟨((0:ℚ)/1), ((27:ℚ)/8), ((0:ℚ)/1)⟩, ⟨((0:ℚ)/1), (-(7:ℚ)/4), ((0:ℚ)/1)⟩, false, 1, 0, 0, 0, "castle_grounds"⟩ : M641.MarioState) = ⟨⟨((0:ℚ)/1), ((129:ℚ)/40), ((0:ℚ)/1)⟩, ⟨((0:ℚ)/1), (-(3:ℚ)/1), ((0:ℚ)/1)⟩, false, 1, 0, 0, 0, "castle_grounds"⟩ := by decide

theorem stepB33 : M641.coast_tick (⟨⟨((0:ℚ)/1), ((129:ℚ)/40), ((0:ℚ)/1)⟩, ⟨((0:ℚ)/1), (-(3:ℚ)/1), ((0:ℚ)/1)⟩, false, 1, 0, 0, 0, "castle_grounds"⟩ : M641.MarioState) = ⟨⟨((0:ℚ)/1), ((241:ℚ)/80), ((0:ℚ)/1)⟩, ⟨((0:ℚ)/1), (-(17:ℚ)/4), ((0:ℚ)/1)⟩, false, 1, 0, 0, 0, "castle_grounds"⟩ := by decide

theorem stepB34 : M641.coast_tick (⟨⟨((0:ℚ)/1), ((241:ℚ)/80), ((0:ℚ)/1)⟩, ⟨((0:ℚ)/1), (-(17:ℚ)/4), ((0:ℚ)/1)⟩, false, 1, 0, 0, 0, "castle_grounds"⟩ : M641.MarioState) = ⟨⟨((0:ℚ)/1), ((219:ℚ)/80), ((0:ℚ)/1)⟩, ⟨((0:ℚ)/1), (-(11:ℚ)/2), ((0:ℚ)/1)⟩, false, 1, 0, 0, 0, "castle_grounds"⟩ := by decide

theorem stepB35 : M641.coast_tick (⟨⟨((0:ℚ)/1), ((219:ℚ)/80), ((0:ℚ)/1)⟩, ⟨((0:ℚ)/1), (-(11:ℚ)/2), ((0:ℚ)/1)⟩, false, 1, 0, 0, 0, "castle_grounds"⟩ : M641.MarioState) = ⟨⟨((0:ℚ)/1), ((12:ℚ)/5), ((0:ℚ)/1)⟩, ⟨((0:ℚ)/1), (-(27:ℚ)/4), ((0:ℚ)/1)⟩, false, 1, 0, 0, 0, "castle_grounds"⟩ := by decide

theorem stepB36 : M641.coast_tick (⟨⟨((0:ℚ)/1), ((12:ℚ)/5), ((0:ℚ)/1)⟩, ⟨((0:ℚ)/1), (-(27:ℚ)/4), ((0:ℚ)/1)⟩, false, 1, 0, 0, 0, "castle_grounds"⟩ : M641.MarioState) = ⟨⟨((0:ℚ)/1), ((2:ℚ)/1), ((0:ℚ)/1)⟩, ⟨((0:ℚ)/1), (-(8:ℚ)/1), ((0:ℚ)/1)⟩, false, 1, 0, 0, 0, "castle_grounds"⟩ := by decide

theorem stepB37 : M641.coast_tick (⟨⟨((0:ℚ)/1), ((2:ℚ)/1), ((0:ℚ)/1)⟩, ⟨((0:ℚ)/1), (-(8:ℚ)/1), ((0:ℚ)/1)⟩, false, 1, 0, 0, 0, "castle_grounds"⟩ : M641.MarioState) = ⟨⟨((0:ℚ)/1), ((123:ℚ)/80), ((0:ℚ)/1)⟩, ⟨((0:ℚ)/1), (-(37:ℚ)/4), ((0:ℚ)/1)⟩, false, 1, 0, 0, 0, "castle_grounds"⟩ := by decide

theorem stepB38 : M641.coast_tick (⟨⟨((0:ℚ)/1), ((123:ℚ)/80), ((0:ℚ)/1)⟩, ⟨((0:ℚ)/1), (-(37:ℚ)/4), ((0:ℚ)/1)⟩, false, 1, 0, 0, 0, "castle_grounds"⟩ : M641.MarioState) = ⟨⟨((0:ℚ)/1), ((81:ℚ)/80), ((0:ℚ)/1)⟩, ⟨((0:ℚ)/1), (-(21:ℚ)/2), ((0:ℚ)/1)⟩, false, 1, 0, 0, 0, "castle_grounds"⟩ := by decide

theorem stepB39 : M641.jump_tick (⟨⟨((0:ℚ)/1), ((81:ℚ)/80), ((0:ℚ)/1)⟩, ⟨((0:ℚ)/1), (-(21:ℚ)/2), ((0:ℚ)/1)⟩, false, 1, 0, 0, 0, "castle_grounds"⟩ : M641.MarioState) = ⟨⟨((0:ℚ)/1), ((9:ℚ)/10), ((0:ℚ)/1)⟩, ⟨((0:ℚ)/1), ((12:ℚ)/1), ((0:ℚ)/1)⟩, false, 1, 0, 0, 0, "castle_grounds"⟩ := by decide

theorem stepC1 : M641.coast (1/20) (⟨⟨((0:ℚ)/1), ((100:ℚ)/1), ((0:ℚ)/1)⟩, ⟨((0:ℚ)/1), ((0:ℚ)/1), ((0:ℚ)/1)⟩, false, 0, 0, 0, 0, "castle_grounds"⟩ : M641.MarioState) = ⟨⟨((0:ℚ)/1), ((1599:ℚ)/16), ((0:ℚ)/1)⟩, ⟨((0:ℚ)/1), (-(5:ℚ)/4), ((0:ℚ)/1)⟩, false, 0, 0, 0, 0, "castle_grounds"⟩ := by decide

theorem stepC2 : M641.coast (1/20) (⟨⟨((0:ℚ)/1), ((1599:ℚ)/16), ((0:ℚ)/1)⟩, ⟨((0:ℚ)/1), (-(5:ℚ)/4), ((0:ℚ)/1)⟩, false, 0, 0, 0, 0, "castle_grounds"⟩ : M641.MarioState) = ⟨⟨((0:ℚ)/1), ((1597:ℚ)/16), ((0:ℚ)/1)⟩, ⟨((0:ℚ)/1), (-(5:ℚ)/2), ((0:ℚ)/1)⟩, false, 0, 0, 0, 0, "castle_grounds"⟩ := by decide

theorem stepC3 : M641.coast (1/20) (⟨⟨((0:ℚ)/1), ((1597:ℚ)/16), ((0:ℚ)/1)⟩, ⟨((0:ℚ)/1), (-(5:ℚ)/2), ((0:ℚ)/1)⟩, false, 0, 0, 0, 0, "castle_grounds"⟩ : M641.MarioState) = ⟨⟨((0:ℚ)/1), ((797:ℚ)/8), ((0:ℚ)/1)⟩, ⟨((0:ℚ)/1), (-(15:ℚ)/4), ((0:ℚ)/1)⟩, false, 0, 0, 0, 0, "castle_grounds"⟩ := by decide

theorem stepC4 : M641.coast (1/20) (⟨⟨((0:ℚ)/1), ((797:ℚ)/8), ((0:ℚ)/1)⟩, ⟨((0:ℚ)/1), (-(15:ℚ)/4), ((0:ℚ)/1)⟩, false, 0, 0, 0, 0, "castle_grounds"⟩ : M641.MarioState) = ⟨⟨((0:ℚ)/1), ((795:ℚ)/8), ((0:ℚ)/1)⟩, ⟨((0:ℚ)/1), (-(5:ℚ)/1), ((0:ℚ)/1)⟩, false, 0, 0, 0, 0, "castle_grounds"⟩ := by decide

theorem stepC5 : M641.coast (1/20) (⟨⟨((0:ℚ)/1), ((795:ℚ)/8), ((0:ℚ)/1)⟩, ⟨((0:ℚ)/1), (-(5:ℚ)/1), ((0:ℚ)/1)⟩, false, 0, 0, 0, 0, "castle_grounds"⟩ : M641.MarioState) = ⟨⟨((0:ℚ)/1), ((1585:ℚ)/16), ((0:ℚ)/1)⟩, ⟨((0:ℚ)/1), (-(25:ℚ)/4), ((0:ℚ)/1)⟩, false, 0, 0, 0, 0, "castle_grounds"⟩ := by decide

theorem stepC6 : M641.coast (1/20) (⟨⟨((0:ℚ)/1), ((1585:ℚ)/16), ((0:ℚ)/1)⟩, ⟨((0:ℚ)/1), (-(25:ℚ)/4), ((0:ℚ)/1)⟩, false, 0, 0, 0, 0, "castle_grounds"⟩ : M641.MarioState) = ⟨⟨((0:ℚ)/1), ((1579:ℚ)/16), ((0:ℚ)/1)⟩, ⟨((0:ℚ)/1), (-(15:ℚ)/2), ((0:ℚ)/1)⟩, false, 0, 0, 0, 0, "castle_grounds"⟩ := by decide

theorem stepC7 : M641.coast (1/20) (⟨⟨((0:ℚ)/1), ((1579:ℚ)/16), ((0:ℚ)/1)⟩, ⟨((0:ℚ)/1), (-(15:ℚ)/2), ((0:ℚ)/1)⟩, false, 0, 0, 0, 0, "castle_grounds"⟩ : M641.MarioState) = ⟨⟨((0:ℚ)/1), ((393:ℚ)/4), ((0:ℚ)/1)⟩, ⟨((0:ℚ)/1), (-(35:ℚ)/4), ((0:ℚ)/1)⟩, false, 0, 0, 0, 0, "castle_grounds"⟩ := by decide

theorem stepC8 : M641.coast (1/20) (⟨⟨((0:ℚ)/1), ((393:ℚ)/4), ((0:ℚ)/1)⟩, ⟨((0:ℚ)/1), (-(35:ℚ)/4), ((0:ℚ)/1)⟩, false, 0, 0, 0, 0, "castle_grounds"⟩ : M641.MarioState) = ⟨⟨((0:ℚ)/1), ((391:ℚ)/4), ((0:ℚ)/1)⟩, ⟨((0:ℚ)/1), (-(10:ℚ)/1), ((0:ℚ)/1)⟩, false, 0, 0, 0, 0, "castle_grounds"⟩ := by decide

theorem stepC9 : M641.coast (1/20) (⟨⟨((0:ℚ)/1), ((391:ℚ)/4), ((0:ℚ)/1)⟩, ⟨((0:ℚ)/1), (-(10:ℚ)/1), ((0:ℚ)/1)⟩, false, 0, 0, 0, 0, "castle_grounds"⟩ : M641.MarioState) = ⟨⟨((0:ℚ)/1), ((1555:ℚ)/16), ((0:ℚ)/1)⟩, ⟨((0:ℚ)/1), (-(45:ℚ)/4), ((0:ℚ)/1)⟩, false, 0, 0, 0, 0, "castle_grounds"⟩ := by decide

theorem stepC10 : M641.coast (1/20) (⟨⟨((0:ℚ)/1), ((1555:ℚ)/16), ((0:ℚ)/1)⟩, ⟨((0:ℚ)/1), (-(45:ℚ)/4), ((0:ℚ)/1)⟩, false, 0, 0, 0, 0, "castle_grounds"⟩ : M641.MarioState) = ⟨⟨((0:ℚ)/1), ((1545:ℚ)/16), ((0:ℚ)/1)⟩, ⟨((0:ℚ)/1), (-(25:ℚ)/2), ((0:ℚ)/1)⟩, false, 0, 0, 0, 0, "castle_grounds"⟩ := by decide

theorem stepC11 : M641.coast (1/20) (⟨⟨((0:ℚ)/1), ((1545:ℚ)/16), ((0:ℚ)/1)⟩, ⟨((0:ℚ)/1), (-(25:ℚ)/2), ((0:ℚ)/1)⟩, false, 0, 0, 0, 0, "castle_grounds"⟩ : M641.MarioState) = ⟨⟨((0:ℚ)/1), ((767:ℚ)/8), ((0:ℚ)/1)⟩, ⟨((0:ℚ)/1), (-(55:ℚ)/4), ((0:ℚ)/1)⟩, false, 0, 0, 0, 0, "castle_grounds"⟩ := by decide

theorem stepC12 : M641.coast (1/20) (⟨⟨((0:ℚ)/1), ((767:ℚ)/8), ((0:ℚ)/1)⟩, ⟨((0:ℚ)/1), (-(55:ℚ)/4), ((0:ℚ)/1)⟩, false, 0, 0, 0, 0, "castle_grounds"⟩ : M641.MarioState) = ⟨⟨((0:ℚ)/1), ((761:ℚ)/8), ((0:ℚ)/1)⟩, ⟨((0:ℚ)/1), (-(15:ℚ)/1), ((0:ℚ)/1)⟩, false, 0, 0, 0, 0, "castle_grounds"⟩ := by decide

theorem stepC13 : M641.coast (1/20) (⟨⟨((0:ℚ)/1), ((761:ℚ)/8), ((0:ℚ)/1)⟩, ⟨((0:ℚ)/1), (-(15:ℚ)/1), ((0:ℚ)/1)⟩, false, 0, 0, 0, 0, "castle_grounds"⟩ : M641.MarioState) = ⟨⟨((0:ℚ)/1), ((1509:ℚ)/16), ((0:ℚ)/1)⟩, ⟨((0:ℚ)/1), (-(65:ℚ)/4), ((0:ℚ)/1)⟩, false, 0, 0, 0, 0, "castle_grounds"⟩ := by decide

theorem stepC14 : M641.coast (1/20) (⟨⟨((0:ℚ)/1), ((1509:ℚ)/16), ((0:ℚ)/1)⟩, ⟨((0:ℚ)/1), (-(65:ℚ)/4), ((0:ℚ)/1)⟩, false, 0, 0, 0, 0, "castle_grounds"⟩ : M641.MarioState) = ⟨⟨((0:ℚ)/1), ((1495:ℚ)/16), ((0:ℚ)/1)⟩, ⟨((0:ℚ)/1), (-(35:ℚ)/2), ((0:ℚ)/1)⟩, false, 0, 0, 0, 0, "castle_grounds"⟩ := by decide

theorem stepC15 : M641.coast (1/20) (⟨⟨((0:ℚ)/1), ((1495:ℚ)/16), ((0:ℚ)/1)⟩, ⟨((0:ℚ)/1), (-(35:ℚ)/2), ((0:ℚ)/1)⟩, false, 0, 0, 0, 0, "castle_grounds"⟩ : M641.MarioState) = ⟨⟨((0:ℚ)/1), ((185:ℚ)/2), ((0:ℚ)/1)⟩, ⟨((0:ℚ)/1), (-(75:ℚ)/4), ((0:ℚ)/1)⟩, false, 0, 0, 0, 0, "castle_grounds"⟩ := by decide

theorem stepC16 : M641.coast (1/20) (⟨⟨((0:ℚ)/1), ((185:ℚ)/2), ((0:ℚ)/1)⟩, ⟨((0:ℚ)/1), (-(75:ℚ)/4), ((0:ℚ)/1)⟩, false, 0, 0, 0, 0, "castle_grounds"⟩ : M641.MarioState) = ⟨⟨((0:ℚ)/1), ((183:ℚ)/2), ((0:ℚ)/1)⟩, ⟨((0:ℚ)/1), (-(20:ℚ)/1), ((0:ℚ)/1)⟩, false, 0, 0, 0, 0, "castle_grounds"⟩ := by decide

theorem stepC17 : M641.coast (1/20) (⟨⟨((0:ℚ)/1), ((183:ℚ)/2), ((0:ℚ)/1)⟩, ⟨((0:ℚ)/1), (-(20:ℚ)/1), ((0:ℚ)/1)⟩, false, 0, 0, 0, 0, "castle_grounds"⟩ : M641.MarioState) = ⟨⟨((0:ℚ)/1), ((1447:ℚ)/16), ((0:ℚ)/1)⟩, ⟨((0:ℚ)/1), (-(85:ℚ)/4), ((0:ℚ)/1)⟩, false, 0, 0, 0, 0, "castle_grounds"⟩ := by decide

theorem stepC18 : M641.coast (1/20) (⟨⟨((0:ℚ)/1), ((1447:ℚ)/16), ((0:ℚ)/1)⟩, ⟨((0:ℚ)/1), (-(85:ℚ)/4), ((0:ℚ)/1)⟩, false, 0, 0, 0, 0, "castle_grounds"⟩ : M641.MarioState) = ⟨⟨((0:ℚ)/1), ((1429:ℚ)/16), ((0:ℚ)/1)⟩, ⟨((0:ℚ)/1), (-(45:ℚ)/2), ((0:ℚ)/1)⟩, false, 0, 0, 0, 0, "castle_grounds"⟩ := by decide

theorem stepC19 : M641.coast (1/20) (⟨⟨((0:ℚ)/1), ((1429:ℚ)/16), ((0:ℚ)/1)⟩, ⟨((0:ℚ)/1), (-(45:ℚ)/2), ((0:ℚ)/1)⟩, false, 0, 0, 0, 0, "castle_grounds"⟩ : M641.MarioState) = ⟨⟨((0:ℚ)/1), ((705:ℚ)/8), ((0:ℚ)/1)⟩, ⟨((0:ℚ)/1), (-(95:ℚ)/4), ((0:ℚ)/1)⟩, false, 0, 0, 0, 0, "castle_grounds"⟩ := by decide

theorem stepC20 : M641.coast (1/20) (⟨⟨((0:ℚ)/1), ((705:ℚ)/8), ((0:ℚ)/1)⟩, ⟨((0:ℚ)/1), (-(95:ℚ)/4), ((0:ℚ)/1)⟩, false, 0, 0, 0, 0, "castle_grounds"⟩ : M641.MarioState) = ⟨⟨((0:ℚ)/1), ((695:ℚ)/8), ((0:ℚ)/1)⟩, ⟨((0:ℚ)/1), (-(25:ℚ)/1), ((0:ℚ)/1)⟩, false, 0, 0, 0, 0, "castle_grounds"⟩ := by decide

theorem stepC21 : M641.coast (1/20) (⟨⟨((0:ℚ)/1), ((695:ℚ)/8), ((0:ℚ)/1)⟩, ⟨((0:ℚ)/1), (-(25:ℚ)/1), ((0:ℚ)/1)⟩, false, 0, 0, 0, 0, "castle_grounds"⟩ : M641.MarioState) = ⟨⟨((0:ℚ)/1), ((1369:ℚ)/16), ((0:ℚ)/1)⟩, ⟨((0:ℚ)/1), (-(105:ℚ)/4), ((0:ℚ)/1)⟩, false, 0, 0, 0, 0, "castle_grounds"⟩ := by decide

theorem stepC22 : M641.coast (1/20) (⟨⟨((0:ℚ)/1), ((1369:ℚ)/16), ((0:ℚ)/1)⟩, ⟨((0:ℚ)/1), (-(105:ℚ)/4), ((0:ℚ)/1)⟩, false, 0, 0, 0, 0, "castle_grounds"⟩ : M641.MarioState) = ⟨⟨((0:ℚ)/1), ((1347:ℚ)/16), ((0:ℚ)/1)⟩, ⟨((0:ℚ)/1), (-(55:ℚ)/2), ((0:ℚ)/1)⟩, false, 0, 0, 0, 0, "castle_grounds"⟩ := by decide

theorem stepC23 : M641.coast (1/20) (⟨⟨((0:ℚ)/1), ((1347:ℚ)/16), ((0:ℚ)/1)⟩, ⟨((0:ℚ)/1), (-(55:ℚ)/2), ((0:ℚ)/1)⟩, false, 0, 0, 0, 0, "castle_grounds"⟩ : M641.MarioState) = ⟨⟨((0:ℚ)/1), ((331:ℚ)/4), ((0:ℚ)/1)⟩, ⟨((0:ℚ)/1), (-(115:ℚ)/4), ((0:ℚ)/1)⟩, false, 0, 0, 0, 0, "castle_grounds"⟩ := by decide

theorem stepC24 : M641.coast (1/20) (⟨⟨((0:ℚ)/1), ((331:ℚ)/4), ((0:ℚ)/1)⟩, ⟨((0:ℚ)/1), (-(115:ℚ)/4), ((0:ℚ)/1)⟩, false, 0, 0, 0, 0, "castle_grounds"⟩ : M641.MarioState) = ⟨⟨((0:ℚ)/1), ((325:ℚ)/4), ((0:ℚ)/1)⟩, ⟨((0:ℚ)/1), (-(30:ℚ)/1), ((0:ℚ)/1)⟩, false, 0, 0, 0, 0, "castle_grounds"⟩ := by decide

theorem stepC25 : M641.coast (1/20) (⟨⟨((0:ℚ)/1), ((325:ℚ)/4), ((0:ℚ)/1)⟩, ⟨((0:ℚ)/1), (-(30:ℚ)/1), ((0:ℚ)/1)⟩, false, 0, 0, 0, 0, "castle_grounds"⟩ : M641.MarioState) = ⟨⟨((0:ℚ)/1), ((1275:ℚ)/16), ((0:ℚ)/1)⟩, ⟨((0:ℚ)/1), (-(125:ℚ)/4), ((0:ℚ)/1)⟩, false, 0, 0, 0, 0, "castle_grounds"⟩ := by decide

theorem stepC26 : M641.coast (1/20) (⟨⟨((0:ℚ)/1), ((1275:ℚ)/16), ((0:ℚ)/1)⟩, ⟨((0:ℚ)/1), (-(125:ℚ)/4), ((0:ℚ)/1)⟩, false, 0, 0, 0, 0, "castle_grounds"⟩ : M641.MarioState) = ⟨⟨((0:ℚ)/1), ((1249:ℚ)/16), ((0:ℚ)/1)⟩, ⟨((0:ℚ)/1), (-(65:ℚ)/2), ((0:ℚ)/1)⟩, false, 0, 0, 0, 0, "castle_grounds"⟩ := by decide

theorem stepC27 : M641.coast (1/20) (⟨⟨((0:ℚ)/1), ((1249:ℚ)/16), ((0:ℚ)/1)⟩, ⟨((0:ℚ)/1), (-(65:ℚ)/2), ((0:ℚ)/1)⟩, false, 0, 0, 0, 0, "castle_grounds"⟩ : M641.MarioState) = ⟨⟨((0:ℚ)/1), ((611:ℚ)/8), ((0:ℚ)/1)⟩, ⟨((0:ℚ)/1), (-(135:ℚ)/4), ((0:ℚ)/1)⟩, false, 0, 0, 0, 0, "castle_grounds"⟩ := by decide

theorem stepC28 : M641.coast (1/20) (⟨⟨((0:ℚ)/1), ((611:ℚ)/8), ((0:ℚ)/1)⟩, ⟨((0:ℚ)/1), (-(135:ℚ)/4), ((0:ℚ)/1)⟩, false, 0, 0, 0, 0, "castle_grounds"⟩ : M641.MarioState) = ⟨⟨((0:ℚ)/1), ((597:ℚ)/8), ((0:ℚ)/1)⟩, ⟨((0:ℚ)/1), (-(35:ℚ)/1), ((0:ℚ)/1)⟩, false, 0, 0, 0, 0, "castle_grounds"⟩ := by decide

theorem stepC29 : M641.coast (1/20) (⟨⟨((0:ℚ)/1), ((597:ℚ)/8), ((0:ℚ)/1)⟩, ⟨((0:ℚ)/1), (-(35:ℚ)/1), ((0:ℚ)/1)⟩, false, 0, 0, 0, 0, "castle_grounds"⟩ : M641.MarioState) = ⟨⟨((0:ℚ)/1), ((1165:ℚ)/16), ((0:ℚ)/1)⟩, ⟨((0:ℚ)/1), (-(145:ℚ)/4), ((0:ℚ)/1)⟩, false, 0, 0, 0, 0, "castle_grounds"⟩ := by decide

theorem stepC30 : M641.coast (1/20) (⟨⟨((0:ℚ)/1), ((1165:ℚ)/16), ((0:ℚ)/1)⟩, ⟨((0:ℚ)/1), (-(145:ℚ)/4), ((0:ℚ)/1)⟩, false, 0, 0, 0, 0, "castle_grounds"⟩ : M641.MarioState) = ⟨⟨((0:ℚ)/1), ((1135:ℚ)/16), ((0:ℚ)/1)⟩, ⟨((0:ℚ)/1), (-(75:ℚ)/2), ((0:ℚ)/1)⟩, false, 0, 0, 0, 0, "castle_grounds"⟩ := by decide

theorem stepC31 : M641.coast (1/20) (⟨⟨((0:ℚ)/1), ((1135:ℚ)/16), ((0:ℚ)/1)⟩, ⟨((0:ℚ)/1), (-(75:ℚ)/2), ((0:ℚ)/1)⟩, false, 0, 0, 0, 0, "castle_grounds"⟩ : M641.MarioState) = ⟨⟨((0:ℚ)/1), ((69:ℚ)/1), ((0:ℚ)/1)⟩, ⟨((0:ℚ)/1), (-(155:ℚ)/4), ((0:ℚ)/1)⟩, false, 0, 0, 0, 0, "castle_grounds"⟩ := by decide

theorem stepC32 : M641.coast (1/20) (⟨⟨((0:ℚ)/1), ((69:ℚ)/1), ((0:ℚ)/1)⟩, ⟨((0:ℚ)/1), (-(155:ℚ)/4), ((0:ℚ)/1)⟩, false, 0, 0, 0, 0, "castle_grounds"⟩ : M641.MarioState) = ⟨⟨((0:ℚ)/1), ((67:ℚ)/1), ((0:ℚ)/1)⟩, ⟨((0:ℚ)/1), (-(40:ℚ)/1), ((0:ℚ)/1)⟩, false, 0, 0, 0, 0, "castle_grounds"⟩ := by decide

theorem stepC33 : M641.coast (1/20) (⟨⟨((0:ℚ)/1), ((67:ℚ)/1), ((0:ℚ)/1)⟩, ⟨((0:ℚ)/1), (-(40:ℚ)/1), ((0:ℚ)/1)⟩, false, 0, 0, 0, 0, "castle_grounds"⟩ : M641.MarioState) = ⟨⟨((0:ℚ)/1), ((1039:ℚ)/16), ((0:ℚ)/1)⟩, ⟨((0:ℚ)/1), (-(165:ℚ)/4), ((0:ℚ)/1)⟩, false, 0, 0, 0, 0, "castle_grounds"⟩ := by decide

theorem stepC34 : M641.coast (1/20) (⟨⟨((0:ℚ)/1), ((1039:ℚ)/16), ((0:ℚ)/1)⟩, ⟨((0:ℚ)/1), (-(165:ℚ)/4), ((0:ℚ)/1)⟩, false, 0, 0, 0, 0, "castle_grounds"⟩ : M641.MarioState) = ⟨⟨((0:ℚ)/1), ((1005:ℚ)/16), ((0:ℚ)/1)⟩, ⟨((0:ℚ)/1), (-(85:ℚ)/2), ((0:ℚ)/1)⟩, false, 0, 0, 0, 0, "castle_grounds"⟩ := by decide

theorem stepC35 : M641.coast (1/20) (⟨⟨((0:ℚ)/1), ((1005:ℚ)/16), ((0:ℚ)/1)⟩, ⟨((0:ℚ)/1), (-(85:ℚ)/2), ((0:ℚ)/1)⟩, false, 0, 0, 0, 0, "castle_grounds"⟩ : M641.MarioState) = ⟨⟨((0:ℚ)/1), ((485:ℚ)/8), ((0:ℚ)/1)⟩, ⟨((0:ℚ)/1), (-(175:ℚ)/4), ((0:ℚ)/1)⟩, false, 0, 0, 0, 0, "castle_grounds"⟩ := by decide

theorem stepC36 : M641.coast (1/20) (⟨⟨((0:ℚ)/1), ((485:ℚ)/8), ((0:ℚ)/1)⟩, ⟨((0:ℚ)/1), (-(175:ℚ)/4), ((0:ℚ)/1)⟩, false, 0, 0, 0, 0, "castle_grounds"⟩ : M641.MarioState) = ⟨⟨((0:ℚ)/1), ((467:ℚ)/8), ((0:ℚ)/1)⟩, ⟨((0:ℚ)/1), (-(45:ℚ)/1), ((0:ℚ)/1)⟩, false, 0, 0, 0, 0, "castle_grounds"⟩ := by decide

theorem stepC37 : M641.coast (1/20) (⟨⟨((0:ℚ)/1), ((467:ℚ)/8), ((0:ℚ)/1)⟩, ⟨((0:ℚ)/1), (-(45:ℚ)/1), ((0:ℚ)/1)⟩, false, 0, 0, 0, 0, "castle_grounds"⟩ : M641.MarioState) = ⟨⟨((0:ℚ)/1), ((897:ℚ)/16), ((0:ℚ)/1)⟩, ⟨((0:ℚ)/1), (-(185:ℚ)/4), ((0:ℚ)/1)⟩, false, 0, 0, 0, 0, "castle_grounds"⟩ := by decide

theorem stepC38 : M641.coast (1/20) (⟨⟨((0:ℚ)/1), ((897:ℚ)/16), ((0:ℚ)/1)⟩, ⟨((0:ℚ)/1), (-(185:ℚ)/4), ((0:ℚ)/1)⟩, false, 0, 0, 0, 0, "castle_grounds"⟩ : M641.MarioState) = ⟨⟨((0:ℚ)/1), ((859:ℚ)/16), ((0:ℚ)/1)⟩, ⟨((0:ℚ)/1), (-(95:ℚ)/2), ((0:ℚ)/1)⟩, false, 0, 0, 0, 0, "castle_grounds"⟩ := by decide

theorem stepC39 : M641.coast (1/20) (⟨⟨((0:ℚ)/1), ((859:ℚ)/16), ((0:ℚ)/1)⟩, ⟨((0:ℚ)/1), (-(95:ℚ)/2), ((0:ℚ)/1)⟩, false, 0, 0, 0, 0, "castle_grounds"⟩ : M641.MarioState) = ⟨⟨((0:ℚ)/1), ((205:ℚ)/4), ((0:ℚ)/1)⟩, ⟨((0:ℚ)/1), (-(195:ℚ)/4), ((0:ℚ)/1)⟩, false, 0, 0, 0, 0, "castle_grounds"⟩ := by decide

theorem stepC40 : M641.coast (1/20) (⟨⟨((0:ℚ)/1), ((205:ℚ)/4), ((0:ℚ)/1)⟩, ⟨((0:ℚ)/1), (-(195:ℚ)/4), ((0:ℚ)/1)⟩, false, 0, 0, 0, 0, "castle_grounds"⟩ : M641.MarioState) = ⟨⟨((0:ℚ)/1), ((195:ℚ)/4), ((0:ℚ)/1)⟩, ⟨((0:ℚ)/1), (-(50:ℚ)/1), ((0:ℚ)/1)⟩, false, 0, 0, 0, 0, "castle_grounds"⟩ := by decide

theorem stepC41 : M641.coast (1/20) (⟨⟨((0:ℚ)/1), ((195:ℚ)/4), ((0:ℚ)/1)⟩, ⟨((0:ℚ)/1), (-(50:ℚ)/1), ((0:ℚ)/1)⟩, false, 0, 0, 0, 0, "castle_grounds"⟩ : M641.MarioState) = ⟨⟨((0:ℚ)/1), ((739:ℚ)/16), ((0:ℚ)/1)⟩, ⟨((0:ℚ)/1), (-(205:ℚ)/4), ((0:ℚ)/1)⟩, false, 0, 0, 0, 0, "castle_grounds"⟩ := by decide

theorem stepD1 : MPF.coast (1/20) (⟨⟨((0:ℚ)/1), ((2:ℚ)/1), ((0:ℚ)/1)⟩, ⟨((0:ℚ)/1), ((0:ℚ)/1), ((0:ℚ)/1)⟩, false, 0, 0, 0, "courtyard"⟩ : MPF.MarioState) = ⟨⟨((0:ℚ)/1), ((31:ℚ)/16), ((0:ℚ)/1)⟩, ⟨((0:ℚ)/1), (-(5:ℚ)/4), ((0:ℚ)/1)⟩, false, 0, 0, 0, "courtyard"⟩ := by decide

theorem stepD2 : MPF.coast (1/20) (⟨⟨((0:ℚ)/1), ((31:ℚ)/16), ((0:ℚ)/1)⟩, ⟨((0:ℚ)/1), (-(5:ℚ)/4), ((0:ℚ)/1)⟩, false, 0, 0, 0, "courtyard"⟩ : MPF.MarioState) = ⟨⟨((0:ℚ)/1), ((29:ℚ)/16), ((0:ℚ)/1)⟩, ⟨((0:ℚ)/1), (-(5:ℚ)/2), ((0:ℚ)/1)⟩, false, 0, 0, 0, "courtyard"⟩ := by decide

theorem stepD3 : MPF.coast (1/20) (⟨⟨((0:ℚ)/1), ((29:ℚ)/16), ((0:ℚ)/1)⟩, ⟨((0:ℚ)/1), (-(5:ℚ)/2), ((0:ℚ)/1)⟩, false, 0, 0, 0, "courtyard"⟩ : MPF.MarioState) = ⟨⟨((0:ℚ)/1), ((13:ℚ)/8), ((0:ℚ)/1)⟩, ⟨((0:ℚ)/1), (-(15:ℚ)/4), ((0:ℚ)/1)⟩, false, 0, 0, 0, "courtyard"⟩ := by decide

theorem stepD4 : MPF.coast (1/20) (⟨⟨((0:ℚ)/1), ((13:ℚ)/8), ((0:ℚ)/1)⟩, ⟨((0:ℚ)/1), (-(15:ℚ)/4), ((0:ℚ)/1)⟩, false, 0, 0, 0, "courtyard"⟩ : MPF.MarioState) = ⟨⟨((0:ℚ)/1), ((11:ℚ)/8), ((0:ℚ)/1)⟩, ⟨((0:ℚ)/1), (-(5:ℚ)/1), ((0:ℚ)/1)⟩, false, 0, 0, 0, "courtyard"⟩ := by decide

theorem stepD5 : MPF.coast (1/20) (⟨⟨((0:ℚ)/1), ((11:ℚ)/8), ((0:ℚ)/1)⟩, ⟨((0:ℚ)/1), (-(5:ℚ)/1), ((0:ℚ)/1)⟩, false, 0, 0, 0, "courtyard"⟩ : MPF.MarioState) = ⟨⟨((0:ℚ)/1), ((17:ℚ)/16), ((0:ℚ)/1)⟩, ⟨((0:ℚ)/1), (-(25:ℚ)/4), ((0:ℚ)/1)⟩, false, 0, 0, 0, "courtyard"⟩ := by decide

theorem stepD6 : MPF.coast (1/20) (⟨⟨((0:ℚ)/1), ((17:ℚ)/16), ((0:ℚ)/1)⟩, ⟨((0:ℚ)/1), (-(25:ℚ)/4), ((0:ℚ)/1)⟩, false, 0, 0, 0, "courtyard"⟩ : MPF.MarioState) = ⟨⟨((0:ℚ)/1), ((11:ℚ)/16), ((0:ℚ)/1)⟩, ⟨((0:ℚ)/1), (-(15:ℚ)/2), ((0:ℚ)/1)⟩, false, 0, 0, 0, "courtyard"⟩ := by decide

theorem stepD7 : MPF.coast (1/20) (⟨⟨((0:ℚ)/1), ((11:ℚ)/16), ((0:ℚ)/1)⟩, ⟨((0:ℚ)/1), (-(15:ℚ)/2), ((0:ℚ)/1)⟩, false, 0, 0, 0, "courtyard"⟩ : MPF.MarioState) = ⟨⟨((0:ℚ)/1), ((1:ℚ)/4), ((0:ℚ)/1)⟩, ⟨((0:ℚ)/1), (-(35:ℚ)/4), ((0:ℚ)/1)⟩, false, 0, 0, 0, "courtyard"⟩ := by decide

theorem stepD8 : MPF.coast (1/20) (⟨⟨((0:ℚ)/1), ((1:ℚ)/4), ((0:ℚ)/1)⟩, ⟨((0:ℚ)/1), (-(35:ℚ)/4), ((0:ℚ)/1)⟩, false, 0, 0, 0, "courtyard"⟩ : MPF.MarioState) = ⟨⟨((0:ℚ)/1), (-(1:ℚ)/4), ((0:ℚ)/1)⟩, ⟨((0:ℚ)/1), (-(10:ℚ)/1), ((0:ℚ)/1)⟩, false, 0, 0, 0, "courtyard"⟩ := by decide

theorem stepD9 : MPF.coast (1/20) (⟨⟨((0:ℚ)/1), (-(1:ℚ)/4), ((0:ℚ)/1)⟩, ⟨((0:ℚ)/1), (-(10:ℚ)/1), ((0:ℚ)/1)⟩, false, 0, 0, 0, "courtyard"⟩ : MPF.MarioState) = ⟨⟨((0:ℚ)/1), (-(13:ℚ)/16), ((0:ℚ)/1)⟩, ⟨((0:ℚ)/1), (-(45:ℚ)/4), ((0:ℚ)/1)⟩, false, 0, 0, 0, "courtyard"⟩ := by decide

theorem stepD10 : MPF.coast (1/20) (⟨⟨((0:ℚ)/1), (-(13:ℚ)/16), ((0:ℚ)/1)⟩, ⟨((0:ℚ)/1), (-(45:ℚ)/4), ((0:ℚ)/1)⟩, false, 0, 0, 0, "courtyard"⟩ : MPF.MarioState) = ⟨⟨((0:ℚ)/1), (-(23:ℚ)/16), ((0:ℚ)/1)⟩, ⟨((0:ℚ)/1), (-(25:ℚ)/2), ((0:ℚ)/1)⟩, false, 0, 0, 0, "courtyard"⟩ := by decide

theorem stepD11 : MPF.coast (1/20) (⟨⟨((0:ℚ)/1), (-(23:ℚ)/16), ((0:ℚ)/1)⟩, ⟨((0:ℚ)/1), (-(25:ℚ)/2), ((0:ℚ)/1)⟩, false, 0, 0, 0, "courtyard"⟩ : MPF.MarioState) = ⟨⟨((0:ℚ)/1), (-(17:ℚ)/8), ((0:ℚ)/1)⟩, ⟨((0:ℚ)/1), (-(55:ℚ)/4), ((0:ℚ)/1)⟩, false, 0, 0, 0, "courtyard"⟩ := by decide

theorem stepD12 : MPF.coast (1/20) (⟨⟨((0:ℚ)/1), (-(17:ℚ)/8), ((0:ℚ)/1)⟩, ⟨((0:ℚ)/1), (-(55:ℚ)/4), ((0:ℚ)/1)⟩, false, 0, 0, 0, "courtyard"⟩ : MPF.MarioState) = ⟨⟨((0:ℚ)/1), (-(23:ℚ)/8), ((0:ℚ)/1)⟩, ⟨((0:ℚ)/1), (-(15:ℚ)/1), ((0:ℚ)/1)⟩, false, 0, 0, 0, "courtyard"⟩ := by decide

theorem stepD13 : MPF.coast (1/20) (⟨⟨((0:ℚ)/1), (-(23:ℚ)/8), ((0:ℚ)/1)⟩, ⟨((0:ℚ)/1), (-(15:ℚ)/1), ((0:ℚ)/1)⟩, false, 0, 0, 0, "courtyard"⟩ : MPF.MarioState) = ⟨⟨((0:ℚ)/1), (-(59:ℚ)/16), ((0:ℚ)/1)⟩, ⟨((0:ℚ)/1), (-(65:ℚ)/4), ((0:ℚ)/1)⟩, false, 0, 0, 0, "courtyard"⟩ := by decide

theorem stepD14 : MPF.coast (1/20) (⟨⟨((0:ℚ)/1), (-(59:ℚ)/16), ((0:ℚ)/1)⟩, ⟨((0:ℚ)/1), (-(65:ℚ)/4), ((0:ℚ)/1)⟩, false, 0, 0, 0, "courtyard"⟩ : MPF.MarioState) = ⟨⟨((0:ℚ)/1), (-(73:ℚ)/16), ((0:ℚ)/1)⟩, ⟨((0:ℚ)/1), (-(35:ℚ)/2), ((0:ℚ)/1)⟩, false, 0, 0, 0, "courtyard"⟩ := by decide

theorem stepD15 : MPF.coast (1/20) (⟨⟨((0:ℚ)/1), (-(73:ℚ)/16), ((0:ℚ)/1)⟩, ⟨((0:ℚ)/1), (-(35:ℚ)/2), ((0:ℚ)/1)⟩, false, 0, 0, 0, "courtyard"⟩ : MPF.MarioState) = ⟨⟨((0:ℚ)/1), ((10:ℚ)/1), ((0:ℚ)/1)⟩, ⟨((0:ℚ)/1), ((0:ℚ)/1), ((0:ℚ)/1)⟩, false, 0, 0, 0, "courtyard"⟩ := by decide

theorem stepE1 : MIPS.coast (1/10) (⟨⟨((0:ℚ)/1), ((2:ℚ)/1), ((0:ℚ)/1)⟩, ⟨((0:ℚ)/1), ((0:ℚ)/1), ((0:ℚ)/1)⟩, false, 0, 0, 0⟩ : MIPS.MarioState) = ⟨⟨((0:ℚ)/1), ((9:ℚ)/5), ((0:ℚ)/1)⟩, ⟨((0:ℚ)/1), (-(2:ℚ)/1), ((0:ℚ)/1)⟩, false, 0, 0, 0⟩ := by decide

theorem stepE2 : MIPS.coast (1/10) (⟨⟨((0:ℚ)/1), ((9:ℚ)/5), ((0:ℚ)/1)⟩, ⟨((0:ℚ)/1), (-(2:ℚ)/1), ((0:ℚ)/1)⟩, false, 0, 0, 0⟩ : MIPS.MarioState) = ⟨⟨((0:ℚ)/1), ((7:ℚ)/5), ((0:ℚ)/1)⟩, ⟨((0:ℚ)/1), (-(4:ℚ)/1), ((0:ℚ)/1)⟩, false, 0, 0, 0⟩ := by decide

theorem stepE3 : MIPS.coast (1/10) (⟨⟨((0:ℚ)/1), ((7:ℚ)/5), ((0:ℚ)/1)⟩, ⟨((0:ℚ)/1), (-(4:ℚ)/1), ((0:ℚ)/1)⟩, false, 0, 0, 0⟩ : MIPS.MarioState) = ⟨⟨((0:ℚ)/1), ((4:ℚ)/5), ((0:ℚ)/1)⟩, ⟨((0:ℚ)/1), (-(6:ℚ)/1), ((0:ℚ)/1)⟩, false, 0, 0, 0⟩ := by decide

theorem stepE4 : MIPS.coast (1/10) (⟨⟨((0:ℚ)/1), ((4:ℚ)/5), ((0:ℚ)/1)⟩, ⟨((0:ℚ)/1), (-(6:ℚ)/1), ((0:ℚ)/1)⟩, false, 0, 0, 0⟩ : MIPS.MarioState) = ⟨⟨((0:ℚ)/1), ((0:ℚ)/1), ((0:ℚ)/1)⟩, ⟨((0:ℚ)/1), (-(8:ℚ)/1), ((0:ℚ)/1)⟩, false, 0, 0, 0⟩ := by decide

theorem stepE5 : MIPS.coast (1/10) (⟨⟨((0:ℚ)/1), ((0:ℚ)/1), ((0:ℚ)/1)⟩, ⟨((0:ℚ)/1), (-(8:ℚ)/1), ((0:ℚ)/1)⟩, false, 0, 0, 0⟩ : MIPS.MarioState) = ⟨⟨((0:ℚ)/1), (-(1:ℚ)/1), ((0:ℚ)/1)⟩, ⟨((0:ℚ)/1), (-(10:ℚ)/1), ((0:ℚ)/1)⟩, false, 0, 0, 0⟩ := by decide

theorem stepF1 : MPF.coast (1/10) (⟨⟨((0:ℚ)/1), ((2:ℚ)/1), ((0:ℚ)/1)⟩, ⟨((0:ℚ)/1), ((0:ℚ)/1), ((0:ℚ)/1)⟩, false, 0, 0, 0, "courtyard"⟩ : MPF.MarioState) = ⟨⟨((0:ℚ)/1), ((31:ℚ)/16), ((0:ℚ)/1)⟩, ⟨((0:ℚ)/1), (-(5:ℚ)/4), ((0:ℚ)/1)⟩, false, 0, 0, 0, "courtyard"⟩ := by decide

theorem stepF2 : MPF.coast (1/10) (⟨⟨((0:ℚ)/1), ((31:ℚ)/16), ((0:ℚ)/1)⟩, ⟨((0:ℚ)/1), (-(5:ℚ)/4), ((0:ℚ)/1)⟩, false, 0, 0, 0, "courtyard"⟩ : MPF.MarioState) = ⟨⟨((0:ℚ)/1), ((29:ℚ)/16), ((0:ℚ)/1)⟩, ⟨((0:ℚ)/1), (-(5:ℚ)/2), ((0:ℚ)/1)⟩, false, 0, 0, 0, "courtyard"⟩ := by decide

theorem stepF3 : MPF.coast (1/10) (⟨⟨((0:ℚ)/1), ((29:ℚ)/16), ((0:ℚ)/1)⟩, ⟨((0:ℚ)/1), (-(5:ℚ)/2), ((0:ℚ)/1)⟩, false, 0, 0, 0, "courtyard"⟩ : MPF.MarioState) = ⟨⟨((0:ℚ)/1), ((13:ℚ)/8), ((0:ℚ)/1)⟩, ⟨((0:ℚ)/1), (-(15:ℚ)/4), ((0:ℚ)/1)⟩, false, 0, 0, 0, "courtyard"⟩ := by decide

theorem stepF4 : MPF.coast (1/10) (⟨⟨((0:ℚ)/1), ((13:ℚ)/8), ((0:ℚ)/1)⟩, ⟨((0:ℚ)/1), (-(15:ℚ)/4), ((0:ℚ)/1)⟩, false, 0, 0, 0, "courtyard"⟩ : MPF.MarioState) = ⟨⟨((0:ℚ)/1), ((11:ℚ)/8), ((0:ℚ)/1)⟩, ⟨((0:ℚ)/1), (-(5:ℚ)/1), ((0:ℚ)/1)⟩, false, 0, 0, 0, "courtyard"⟩ := by decide

theorem stepF5 : MPF.coast (1/10) (⟨⟨((0:ℚ)/1), ((11:ℚ)/8), ((0:ℚ)/1)⟩, ⟨((0:ℚ)/1), (-(5:ℚ)/1), ((0:ℚ)/1)⟩, false, 0, 0, 0, "courtyard"⟩ : MPF.MarioState) = ⟨⟨((0:ℚ)/1), ((17:ℚ)/16), ((0:ℚ)/1)⟩, ⟨((0:ℚ)/1), (-(25:ℚ)/4), ((0:ℚ)/1)⟩, false, 0, 0, 0, "courtyard"⟩ := by decide

theorem asmA19 : MPF.coast_tick^[18] (⟨⟨((0:ℚ)/1), ((9:ℚ)/10), ((0:ℚ)/1)⟩, ⟨((0:ℚ)/1), ((12:ℚ)/1), ((0:ℚ)/1)⟩, false, 1, 0, 0, "courtyard"⟩ : MPF.MarioState) = ⟨⟨((0:ℚ)/1), ((81:ℚ)/80), ((0:ℚ)/1)⟩, ⟨((0:ℚ)/1), (-(21:ℚ)/2), ((0:ℚ)/1)⟩, false, 1, 0, 0, "courtyard"⟩ := by simp only [Function.iterate_succ_apply, Function.iterate_zero_apply, stepA2, stepA3, stepA4, stepA5, stepA6, stepA7, stepA8, stepA9, stepA10, stepA11, stepA12, stepA13, stepA14, stepA15, stepA16, stepA17, stepA18, stepA19]

theorem asmA38 : MPF.coast_tick^[18] (⟨⟨((0:ℚ)/1), ((9:ℚ)/10), ((0:ℚ)/1)⟩, ⟨((0:ℚ)/1), ((12:ℚ)/1), ((0:ℚ)/1)⟩, false, 1, 0, 0, "courtyard"⟩ : MPF.MarioState) = ⟨⟨((0:ℚ)/1), ((81:ℚ)/80), ((0:ℚ)/1)⟩, ⟨((0:ℚ)/1), (-(21:ℚ)/2), ((0:ℚ)/1)⟩, false, 1, 0, 0, "courtyard"⟩ := by simp only [Function.iterate_succ_apply, Function.iterate_zero_apply, stepA21, stepA22, stepA23, stepA24, stepA25, stepA26, stepA27, stepA28, stepA29, stepA30, stepA31, stepA32, stepA33, stepA34, stepA35, stepA36, stepA37, stepA38]

theorem asmA10 : MPF.coast_tick^[9] (⟨⟨((0:ℚ)/1), ((9:ℚ)/10), ((0:ℚ)/1)⟩, ⟨((0:ℚ)/1), ((12:ℚ)/1), ((0:ℚ)/1)⟩, false, 1, 0, 0, "courtyard"⟩ : MPF.MarioState) = ⟨⟨((0:ℚ)/1), ((279:ℚ)/80), ((0:ℚ)/1)⟩, ⟨((0:ℚ)/1), ((3:ℚ)/4), ((0:ℚ)/1)⟩, false, 1, 0, 0, "courtyard"⟩ := by simp only [Function.iterate_succ_apply, Function.iterate_zero_apply, stepA2, stepA3, stepA4, stepA5, stepA6, stepA7, stepA8, stepA9, stepA10]

theorem hjump1F : MPF.jump1 = (⟨⟨((0:ℚ)/1), ((9:ℚ)/10), ((0:ℚ)/1)⟩, ⟨((0:ℚ)/1), ((12:ℚ)/1), ((0:ℚ)/1)⟩, false, 1, 0, 0, "courtyard"⟩ : MPF.MarioState) := by unfold MPF.jump1; rw [restF_eq]; exact stepA1

theorem hjump2F : MPF.jump2 = (⟨⟨((0:ℚ)/1), ((9:ℚ)/10), ((0:ℚ)/1)⟩, ⟨((0:ℚ)/1), ((12:ℚ)/1), ((0:ℚ)/1)⟩, false, 1, 0, 0, "courtyard"⟩ : MPF.MarioState) := by unfold MPF.jump2; rw [hjump1F, asmA19]; exact stepA20

theorem hjump3F : MPF.jump3 = (⟨⟨((0:ℚ)/1), ((9:ℚ)/10), ((0:ℚ)/1)⟩, ⟨((0:ℚ)/1), ((12:ℚ)/1), ((0:ℚ)/1)⟩, false, 1, 0, 0, "courtyard"⟩ : MPF.MarioState) := by unfold MPF.jump3; rw [hjump2F, asmA38]; exact stepA39

theorem asmB19 : M641.coast_tick^[18] (⟨⟨((0:ℚ)/1), ((9:ℚ)/10), ((0:ℚ)/1)⟩, ⟨((0:ℚ)/1), ((12:ℚ)/1), ((0:ℚ)/1)⟩, false, 1, 0, 0, 0, "castle_grounds"⟩ : M641.MarioState) = ⟨⟨((0:ℚ)/1), ((81:ℚ)/80), ((0:ℚ)/1)⟩, ⟨((0:ℚ)/1), (-(21:ℚ)/2), ((0:ℚ)/1)⟩, false, 1, 0, 0, 0, "castle_grounds"⟩ := by simp only [Function.iterate_succ_apply, Function.iterate_zero_apply, stepB2, stepB3, stepB4, stepB5, stepB6, stepB7, stepB8, stepB9, stepB10, stepB11, stepB12, stepB13, stepB14, stepB15, stepB16, stepB17, stepB18, stepB19]

theorem asmB38 : M641.coast_tick^[18] (⟨⟨((0:ℚ)/1), ((9:ℚ)/10), ((0:ℚ)/1)⟩, ⟨((0:ℚ)/1), ((12:ℚ)/1), ((0:ℚ)/1)⟩, false, 1, 0, 0, 0, "castle_grounds"⟩ : M641.MarioState) = ⟨⟨((0:ℚ)/1), ((81:ℚ)/80), ((0:ℚ)/1)⟩, ⟨((0:ℚ)/1), (-(21:ℚ)/2), ((0:ℚ)/1)⟩, false, 1, 0, 0, 0, "castle_grounds"⟩ := by simp only [Function.iterate_succ_apply, Function.iterate_zero_apply, stepB21, stepB22, stepB23, stepB24, stepB25, stepB26, stepB27, stepB28, stepB29, stepB30, stepB31, stepB32, stepB33, stepB34, stepB35, stepB36, stepB37, stepB38]

theorem asmB10 : M641.coast_tick^[9] (⟨⟨((0:ℚ)/1), ((9:ℚ)/10), ((0:ℚ)/1)⟩, ⟨((0:ℚ)/1), ((12:ℚ)/1), ((0:ℚ)/1)⟩, false, 1, 0, 0, 0, "castle_grounds"⟩ : M641.MarioState) = ⟨⟨((0:ℚ)/1), ((279:ℚ)/80), ((0:ℚ)/1)⟩, ⟨((0:ℚ)/1), ((3:ℚ)/4), ((0:ℚ)/1)⟩, false, 1, 0, 0, 0, "castle_grounds"⟩ := by simp only [Function.iterate_succ_apply, Function.iterate_zero_apply, stepB2, stepB3, stepB4, stepB5, stepB6, stepB7, stepB8, stepB9, stepB10]

theorem hjump1B : M641.jump1 = (⟨⟨((0:ℚ)/1), ((9:ℚ)/10), ((0:ℚ)/1)⟩, ⟨((0:ℚ)/1), ((12:ℚ)/1), ((0:ℚ)/1)⟩, false, 1, 0, 0, 0, "castle_grounds"⟩ : M641.MarioState) := by unfold M641.jump1; rw [restB_eq]; exact stepB1

theorem hjump2B : M641.jump2 = (⟨⟨((0:ℚ)/1), ((9:ℚ)/10), ((0:ℚ)/1)⟩, ⟨((0:ℚ)/1), ((12:ℚ)/1), ((0:ℚ)/1)⟩, false, 1, 0, 0, 0, "castle_grounds"⟩ : M641.MarioState) := by unfold M641.jump2; rw [hjump1B, asmB19]; exact stepB20

theorem hjump3B : M641.jump3 = (⟨⟨((0:ℚ)/1), ((9:ℚ)/10), ((0:ℚ)/1)⟩, ⟨((0:ℚ)/1), ((12:ℚ)/1), ((0:ℚ)/1)⟩, false, 1, 0, 0, 0, "castle_grounds"⟩ : M641.MarioState) := by unfold M641.jump3; rw [hjump2B, asmB38]; exact stepB39

theorem asmC41 : (M641.coast (1/20))^[41] (M641.highStart) = ⟨⟨((0:ℚ)/1), ((739:ℚ)/16), ((0:ℚ)/1)⟩, ⟨((0:ℚ)/1), (-(205:ℚ)/4), ((0:ℚ)/1)⟩, false, 0, 0, 0, 0, "castle_grounds"⟩ := by simp only [Function.iterate_succ_apply, Function.iterate_zero_apply, highB_eq, stepC1, stepC2, stepC3, stepC4, stepC5, stepC6, stepC7, stepC8, stepC9, stepC10, stepC11, stepC12, stepC13, stepC14, stepC15, stepC16, stepC17, stepC18, stepC19, stepC20, stepC21, stepC22, stepC23, stepC24, stepC25, stepC26, stepC27, stepC28, stepC29, stepC30, stepC31, stepC32, stepC33, stepC34, stepC35, stepC36, stepC37, stepC38, stepC39, stepC40, stepC41]

theorem asmD14 : (MPF.coast (1/20))^[14] (MPF.init) = ⟨⟨((0:ℚ)/1), (-(73:ℚ)/16), ((0:ℚ)/1)⟩, ⟨((0:ℚ)/1), (-(35:ℚ)/2), ((0:ℚ)/1)⟩, false, 0, 0, 0, "courtyard"⟩ := by simp only [Function.iterate_succ_apply, Function.iterate_zero_apply, initF_eq, stepD1, stepD2, stepD3, stepD4, stepD5, stepD6, stepD7, stepD8, stepD9, stepD10, stepD11, stepD12, stepD13, stepD14]

theorem asmD15 : (MPF.coast (1/20))^[15] (MPF.init) = ⟨⟨((0:ℚ)/1), ((10:ℚ)/1), ((0:ℚ)/1)⟩, ⟨((0:ℚ)/1), ((0:ℚ)/1), ((0:ℚ)/1)⟩, false, 0, 0, 0, "courtyard"⟩ := by simp only [Function.iterate_succ_apply, Function.iterate_zero_apply, initF_eq, stepD1, stepD2, stepD3, stepD4, stepD5, stepD6, stepD7, stepD8, stepD9, stepD10, stepD11, stepD12, stepD13, stepD14, stepD15]

theorem asmE0 : (MIPS.coast (1/10))^[0] (MIPS.init) = ⟨⟨((0:ℚ)/1), ((2:ℚ)/1), ((0:ℚ)/1)⟩, ⟨((0:ℚ)/1), ((0:ℚ)/1), ((0:ℚ)/1)⟩, false, 0, 0, 0⟩ := by simp only [Function.iterate_succ_apply, Function.iterate_zero_apply, initM_eq]

theorem asmE1 : (MIPS.coast (1/10))^[1] (MIPS.init) = ⟨⟨((0:ℚ)/1), ((9:ℚ)/5), ((0:ℚ)/1)⟩, ⟨((0:ℚ)/1), (-(2:ℚ)/1), ((0:ℚ)/1)⟩, false, 0, 0, 0⟩ := by simp only [Function.iterate_succ_apply, Function.iterate_zero_apply, initM_eq, stepE1]

theorem asmE2 : (MIPS.coast (1/10))^[2] (MIPS.init) = ⟨⟨((0:ℚ)/1), ((7:ℚ)/5), ((0:ℚ)/1)⟩, ⟨((0:ℚ)/1), (-(4:ℚ)/1), ((0:ℚ)/1)⟩, false, 0, 0, 0⟩ := by simp only [Function.iterate_succ_apply, Function.iterate_zero_apply, initM_eq, stepE1, stepE2]

theorem asmE3 : (MIPS.coast (1/10))^[3] (MIPS.init) = ⟨⟨((0:ℚ)/1), ((4:ℚ)/5), ((0:ℚ)/1)⟩, ⟨((0:ℚ)/1), (-(6:ℚ)/1), ((0:ℚ)/1)⟩, false, 0, 0, 0⟩ := by simp only [Function.iterate_succ_apply, Function.iterate_zero_apply, initM_eq, stepE1, stepE2, stepE3]

theorem asmE4 : (MIPS.coast (1/10))^[4] (MIPS.init) = ⟨⟨((0:ℚ)/1), ((0:ℚ)/1), ((0:ℚ)/1)⟩, ⟨((0:ℚ)/1), (-(8:ℚ)/1), ((0:ℚ)/1)⟩, false, 0, 0, 0⟩ := by simp only [Function.iterate_succ_apply, Function.iterate_zero_apply, initM_eq, stepE1, stepE2, stepE3, stepE4]

theorem asmE5 : (MIPS.coast (1/10))^[5] (MIPS.init) = ⟨⟨((0:ℚ)/1), (-(1:ℚ)/1), ((0:ℚ)/1)⟩, ⟨((0:ℚ)/1), (-(10:ℚ)/1), ((0:ℚ)/1)⟩, false, 0, 0, 0⟩ := by simp only [Function.iterate_succ_apply, Function.iterate_zero_apply, initM_eq, stepE1, stepE2, stepE3, stepE4, stepE5]

theorem asmF0 : (MPF.coast (1/10))^[0] (MPF.init) = ⟨⟨((0:ℚ)/1), ((2:ℚ)/1), ((0:ℚ)/1)⟩, ⟨((0:ℚ)/1), ((0:ℚ)/1), ((0:ℚ)/1)⟩, false, 0, 0, 0, "courtyard"⟩ := by simp only [Function.iterate_succ_apply, Function.iterate_zero_apply, initF_eq]

theorem asmF1 : (MPF.coast (1/10))^[1] (MPF.init) = ⟨⟨((0:ℚ)/1), ((31:ℚ)/16), ((0:ℚ)/1)⟩, ⟨((0:ℚ)/1), (-(5:ℚ)/4), ((0:ℚ)/1)⟩, false, 0, 0, 0, "courtyard"⟩ := by simp only [Function.iterate_succ_apply, Function.iterate_zero_apply, initF_eq, stepF1]

theorem asmF2 : (MPF.coast (1/10))^[2] (MPF.init) = ⟨⟨((0:ℚ)/1), ((29:ℚ)/16), ((0:ℚ)/1)⟩, ⟨((0:ℚ)/1), (-(5:ℚ)/2), ((0:ℚ)/1)⟩, false, 0, 0, 0, "courtyard"⟩ := by simp only [Function.iterate_succ_apply, Function.iterate_zero_apply, initF_eq, stepF1, stepF2]

theorem asmF3 : (MPF.coast (1/10))^[3] (MPF.init) = ⟨⟨((0:ℚ)/1), ((13:ℚ)/8), ((0:ℚ)/1)⟩, ⟨((0:ℚ)/1), (-(15:ℚ)/4), ((0:ℚ)/1)⟩, false, 0, 0, 0, "courtyard"⟩ := by simp only [Function.iterate_succ_apply, Function.iterate_zero_apply, initF_eq, stepF1, stepF2, stepF3]

theorem asmF4 : (MPF.coast (1/10))^[4] (MPF.init) = ⟨⟨((0:ℚ)/1), ((11:ℚ)/8), ((0:ℚ)/1)⟩, ⟨((0:ℚ)/1), (-(5:ℚ)/1), ((0:ℚ)/1)⟩, false, 0, 0, 0, "courtyard"⟩ := by simp only [Function.iterate_succ_apply, Function.iterate_zero_apply, initF_eq, stepF1, stepF2, stepF3, stepF4]

theorem asmF5 : (MPF.coast (1/10))^[5] (MPF.init) = ⟨⟨((0:ℚ)/1), ((17:ℚ)/16), ((0:ℚ)/1)⟩, ⟨((0:ℚ)/1), (-(25:ℚ)/4), ((0:ℚ)/1)⟩, false, 0, 0, 0, "courtyard"⟩ := by simp only [Function.iterate_succ_apply, Function.iterate_zero_apply, initF_eq, stepF1, stepF2, stepF3, stepF4, stepF5]

/-- Claim C1 (code bug evaluation): in both cited variants, issuing the jump
input three times in immediate succession — each on the very tick the body
re-lands after a full airborne arc — produces jump-chain counts 1, 1, 1
(not 1, 2, 0) and the same impulse `JUMP_POWER` on every jump (the second
impulse is not strictly greater than the first), because the landing snap
resets the chain to 0 earlier in the same tick than the jump check. -/
theorem claim_C1_jump_chain_run :
    MPF.jump1.jump_chain = 1 ∧ MPF.jump2.jump_chain = 1 ∧
    MPF.jump3.jump_chain = 1 ∧
    MPF.jump1.vel.y = MPF.JUMP_POWER ∧ MPF.jump2.vel.y = MPF.JUMP_POWER ∧
    MPF.jump3.vel.y = MPF.JUMP_POWER ∧
    (MPF.coast_tick^[9] MPF.jump1).on_ground = false ∧
    ¬ MPF.jump1.vel.y < MPF.jump2.vel.y ∧
    M641.jump1.jump_chain = 1 ∧ M641.jump2.jump_chain = 1 ∧
    M641.jump3.jump_chain = 1 ∧
    M641.jump1.vel.y = M641.JUMP_POWER ∧ M641.jump2.vel.y = M641.JUMP_POWER ∧
    M641.jump3.vel.y = M641.JUMP_POWER ∧
    (M641.coast_tick^[9] M641.jump1).on_ground = false ∧
    ¬ M641.jump1.vel.y < M641.jump2.vel.y := by
  rw [hjump1F, hjump2F, hjump3F, hjump1B, hjump2B, hjump3B, asmA10, asmB10]
  decide

/-- Claim C2 (counterexample): the claim as stated is false on the code.  In
`Mario641.0.py`, which has no terminal-velocity clamp, a body coasting with
zero input and no ground for 41 ticks of Δt = 1/20 ends with `vel.y = -205/4`,
strictly below the fixed variant's terminal constant -50; and in
`mario64_physics_fixed.py` the velocity sequence from the spawn state is not
monotonically non-increasing: on tick 15 the void respawn fires and resets
`vel.y` from -35/2 up to 0. -/
theorem claim_C2_counterexample :
    ((M641.coast (1/20))^[41] M641.highStart).vel.y < -50 ∧
    ((MPF.coast (1/20))^[14] MPF.init).vel.y <
      ((MPF.coast (1/20))^[15] MPF.init).vel.y := by
  rw [asmC41, asmD14, asmD15]
  decide

/-- Claim C3 (amended): with host-supplied Δt = 0.1 and no ground for five
zero-input ticks from `(0,2,0)` at rest, `mips.py` yields
`vel.y = -0.1·g·5` (g = 20) with strictly decreasing height each tick, while
`mario64_physics_fixed.py` clamps each step to Δt = 0.05 and yields
`vel.y = -0.05·g·5` (g = 25), its height also strictly decreasing. -/
theorem claim_C3_amended :
    ((MIPS.coast (1/10))^[5] MIPS.init).vel.y = -(1/10) * MIPS.GRAVITY * 5 ∧
    ((MIPS.coast (1/10))^[1] MIPS.init).pos.y <
      ((MIPS.coast (1/10))^[0] MIPS.init).pos.y ∧
    ((MIPS.coast (1/10))^[2] MIPS.init).pos.y <
      ((MIPS.coast (1/10))^[1] MIPS.init).pos.y ∧
    ((MIPS.coast (1/10))^[3] MIPS.init).pos.y <
      ((MIPS.coast (1/10))^[2] MIPS.init).pos.y ∧
    ((MIPS.coast (1/10))^[4] MIPS.init).pos.y <
      ((MIPS.coast (1/10))^[3] MIPS.init).pos.y ∧
    ((MIPS.coast (1/10))^[5] MIPS.init).pos.y <
      ((MIPS.coast (1/10))^[4] MIPS.init).pos.y ∧
    ((MPF.coast (1/10))^[5] MPF.init).vel.y = -(1/20) * MPF.GRAVITY * 5 ∧
    ((MPF.coast (1/10))^[1] MPF.init).pos.y <
      ((MPF.coast (1/10))^[0] MPF.init).pos.y ∧
    ((MPF.coast (1/10))^[2] MPF.init).pos.y <
      ((MPF.coast (1/10))^[1] MPF.init).pos.y ∧
    ((MPF.coast (1/10))^[3] MPF.init).pos.y <
      ((MPF.coast (1/10))^[2] MPF.init).pos.y ∧
    ((MPF.coast (1/10))^[4] MPF.init).pos.y <
      ((MPF.coast (1/10))^[3] MPF.init).pos.y ∧
    ((MPF.coast (1/10))^[5] MPF.init).pos.y <
      ((MPF.coast (1/10))^[4] MPF.init).pos.y := by
  rw [asmE5, asmE4, asmE3, asmE2, asmE1, asmE0,
      asmF5, asmF4, asmF3, asmF2, asmF1, asmF0]
  decide

/-- Claim C3 (counterexample): in the fixed-physics variant the claim's
predicted velocity `-0.1·g·5` is wrong, because the Δt clamp caps the
effective step at 0.05. -/
theorem claim_C3_counterexample :
    ((MPF.coast (1/10))^[5] MPF.init).vel.y ≠ -(1/10) * MPF.GRAVITY * 5 := by
  rw [asmF5]
  decide

/-- Claim C5 (code bug evaluation): in `mario64_physics_fixed.py` a warp
attempt with the star counter (0) strictly below the portal's requirement (1)
is not a no-op: standing in radius with the interact key held, the warp
fires, changing the current area, the body position and the enabled flags.
In `Mario641.0.py` the same under-threshold attempt is a silent no-op. -/
theorem claim_C5_star_gate_ignored :
    MPF.gInit.mario.stars < MPF.whomp_painting.star_requirement ∧
    MPF.gInit.mario.current_area = "courtyard" ∧
    (MPF.portal_step MPF.whomp_painting 0 true MPF.gInit).mario.current_area =
      "whomp_fortress" ∧
    (MPF.portal_step MPF.whomp_painting 0 true MPF.gInit).mario.pos =
      ⟨0, 5, 0⟩ ∧
    (MPF.portal_step MPF.whomp_painting 0 true MPF.gInit).enabled
      ("whomp_fortress") = true ∧
    MPF.gInit.enabled ("whomp_fortress") = false ∧
    M641.gInit.mario.stars < M641.whomp_painting.star_requirement ∧
    (M641.portal_step M641.whomp_painting true 0 true M641.gInit).mario =
      M641.gInit.mario ∧
    ∀ n : String,
      (M641.portal_step M641.whomp_painting true 0 true M641.gInit).enabled n =
        M641.gInit.enabled n := by
  have hno : ¬ (true = true ∧ (0:ℚ) < 5/2 ∧
      M641.whomp_painting.star_requirement ≤ M641.gInit.mario.stars ∧
      true = true) := by
    intro h
    exact absurd h.2.2.1 (by decide)
  refine ⟨by decide, by decide, by decide, by decide, by decide, by decide,
    by decide, ?_, ?_⟩
  · unfold M641.portal_step
    rw [if_neg hno]
  · intro n
    unfold M641.portal_step
    rw [if_neg hno]

/-- Claim C6 (counterexample): in `mario64_physics_fixed.py` the warp sweep
is not exclusive: after warping to `bobomb_battlefield`, the courtyard
group's entities are still enabled even though courtyard is not the target. -/
theorem claim_C6_counterexample :
    (MPF.warp_to_course ("bobomb_battlefield") MPF.gInit).enabled
      ("courtyard") = true ∧
    ¬ ("courtyard" = "bobomb_battlefield") := by
  decide

/-- Claim C7 (counterexample): in `mario64_physics_fixed.py` a completed warp
does not zero the body's velocity: warping while falling at `vel.y = -7`
leaves the velocity vector unchanged. -/
theorem claim_C7_counterexample :
    (MPF.warp_to_course ("bobomb_battlefield") MPF.gMoving).mario.vel =
      ⟨0, -7, 0⟩ ∧
    ¬ (MPF.warp_to_course ("bobomb_battlefield") MPF.gMoving).mario.vel =
      ⟨0, 0, 0⟩ := by
  decide

/-- Claim C9 (counterexample): in `Mario641.0.py` the fall-out-of-world
recovery is not unconditional in every course: a body in the basement course
below the void threshold is left falling, not teleported to the respawn
point, and its velocity is not zeroed. -/
theorem claim_C9_counterexample :
    M641.basementState.pos.y < -5 ∧
    (M641.update noGround M641.noInput (1/10) M641.basementState).pos.y =
      -(41/4) ∧
    ¬ (M641.update noGround M641.noInput (1/10) M641.basementState).pos =
      ⟨0, 10, 0⟩ ∧
    ¬ (M641.update noGround M641.noInput (1/10) M641.basementState).vel =
      ⟨0, 0, 0⟩ := by
  decide

end ConcreteRuns


end SM64

namespace SM64

/-! Symbolic lemmas about the tick functions, and the remaining claims. -/

section SymbolicClaims

attribute [local semireducible] Rat.add Rat.mul Rat.sub Rat.inv

theorem MPF.coast_eq (dt : ℚ) (s : MPF.MarioState) :
    MPF.coast dt s = MPF.voidPhase
      { s with pos := ⟨s.pos.x,
                 s.pos.y + MPF.gravVel (MPF.dtClamp dt) s.vel.y * MPF.dtClamp dt,
                 s.pos.z⟩,
               vel := ⟨s.vel.x, MPF.gravVel (MPF.dtClamp dt) s.vel.y, s.vel.z⟩,
               on_ground := false } := rfl

theorem MPF.preVoid_coast_eq (dt : ℚ) (s : MPF.MarioState) :
    MPF.preVoid noGround noInput dt s =
      { s with pos := ⟨s.pos.x,
                 s.pos.y + MPF.gravVel (MPF.dtClamp dt) s.vel.y * MPF.dtClamp dt,
                 s.pos.z⟩,
               vel := ⟨s.vel.x, MPF.gravVel (MPF.dtClamp dt) s.vel.y, s.vel.z⟩,
               on_ground := false } := rfl

theorem M641.coast_eq_641 (dt : ℚ) (s : M641.MarioState) :
    M641.coast dt s = M641.voidPhase
      { s with pos := ⟨s.pos.x + s.vel.x * dt,
                 s.pos.y + (s.vel.y - M641.GRAVITY * dt) * dt,
                 s.pos.z + s.vel.z * dt⟩,
               vel := ⟨s.vel.x, s.vel.y - M641.GRAVITY * dt, s.vel.z⟩,
               on_ground := false } := rfl

theorem M641.preVoid_coast_eq_641 (dt : ℚ) (s : M641.MarioState) :
    M641.preVoid noGround M641.noInput dt s =
      { s with pos := ⟨s.pos.x + s.vel.x * dt,
                 s.pos.y + (s.vel.y - M641.GRAVITY * dt) * dt,
                 s.pos.z + s.vel.z * dt⟩,
               vel := ⟨s.vel.x, s.vel.y - M641.GRAVITY * dt, s.vel.z⟩,
               on_ground := false } := rfl

theorem MPF.coast_vel_lb (dt : ℚ) (s : MPF.MarioState) :
    -50 ≤ (MPF.coast dt s).vel.y := by
  rw [MPF.coast_eq]
  unfold MPF.voidPhase
  split
  · norm_num
  · exact le_max_right _ _

theorem MPF.coast_vel_lb_iter (dt : ℚ) (s : MPF.MarioState)
    (h : -50 ≤ s.vel.y) : ∀ n : ℕ, -50 ≤ ((MPF.coast dt)^[n] s).vel.y := by
  intro n
  cases n with
  | zero => simpa using h
  | succ n =>
      rw [Function.iterate_succ_apply']
      exact MPF.coast_vel_lb dt _

theorem MPF.coast_vel_mono (dt : ℚ) (s : MPF.MarioState) (hdt : 0 ≤ dt)
    (h50 : -50 ≤ s.vel.y)
    (hvoid : -5 ≤ (MPF.preVoid noGround noInput dt s).pos.y) :
    (MPF.coast dt s).vel.y ≤ s.vel.y := by
  have hc : 0 ≤ MPF.dtClamp dt := le_min hdt (by norm_num)
  rw [MPF.preVoid_coast_eq] at hvoid
  rw [MPF.coast_eq]
  unfold MPF.voidPhase
  rw [if_neg (not_lt.mpr hvoid)]
  show MPF.gravVel (MPF.dtClamp dt) s.vel.y ≤ s.vel.y
  unfold MPF.gravVel
  apply max_le
  · have h1 : 0 ≤ MPF.GRAVITY * MPF.dtClamp dt :=
      mul_nonneg (by norm_num [MPF.GRAVITY]) hc
    linarith
  · exact h50

theorem M641.coast_vel_mono_641 (dt : ℚ) (s : M641.MarioState) (hdt : 0 ≤ dt)
    (hvoid : -5 ≤ (M641.preVoid noGround M641.noInput dt s).pos.y) :
    (M641.coast dt s).vel.y ≤ s.vel.y := by
  rw [M641.preVoid_coast_eq_641] at hvoid
  rw [M641.coast_eq_641]
  unfold M641.voidPhase
  rw [if_neg]
  · show s.vel.y - M641.GRAVITY * dt ≤ s.vel.y
    have h1 : 0 ≤ M641.GRAVITY * dt :=
      mul_nonneg (by norm_num [M641.GRAVITY]) hdt
    linarith
  · intro hcon
    exact absurd hcon.1 (not_lt.mpr hvoid)

/-- Claim C2 (amended): with zero horizontal input and no ground detected,
in `mario64_physics_fixed.py` the vertical velocity never falls below the
terminal constant -50 (from any start at or above it), and is monotonically
non-increasing on every tick whose void respawn does not fire; in
`Mario641.0.py` (no terminal clamp) it is monotonically non-increasing under
the same proviso, but not bounded below. -/
theorem claim_C2_amended :
    (∀ (dt : ℚ) (s : MPF.MarioState), -50 ≤ s.vel.y →
      ∀ n : ℕ, -50 ≤ ((MPF.coast dt)^[n] s).vel.y) ∧
    (∀ (dt : ℚ) (s : MPF.MarioState) (n : ℕ), 0 ≤ dt → -50 ≤ s.vel.y →
      (∀ k, k < n →
        -5 ≤ (MPF.preVoid noGround noInput dt ((MPF.coast dt)^[k] s)).pos.y) →
      ∀ k, k < n →
        ((MPF.coast dt)^[k + 1] s).vel.y ≤ ((MPF.coast dt)^[k] s).vel.y) ∧
    (∀ (dt : ℚ) (s : M641.MarioState) (n : ℕ), 0 ≤ dt →
      (∀ k, k < n →
        -5 ≤ (M641.preVoid noGround M641.noInput dt
                ((M641.coast dt)^[k] s)).pos.y) →
      ∀ k, k < n →
        ((M641.coast dt)^[k + 1] s).vel.y ≤ ((M641.coast dt)^[k] s).vel.y) := by
  refine ⟨fun dt s h n => MPF.coast_vel_lb_iter dt s h n, ?_, ?_⟩
  · intro dt s n hdt h50 hvoid k hk
    rw [Function.iterate_succ_apply']
    exact MPF.coast_vel_mono dt _ hdt (MPF.coast_vel_lb_iter dt s h50 k)
      (hvoid k hk)
  · intro dt s n hdt hvoid k hk
    rw [Function.iterate_succ_apply']
    exact M641.coast_vel_mono_641 dt _ hdt (hvoid k hk)

theorem claim_C2_amended_witness :
    -50 ≤ ((MPF.coast (1/20))^[3] MPF.init).vel.y ∧
    ((MPF.coast (1/20))^[0 + 1] MPF.init).vel.y ≤
      ((MPF.coast (1/20))^[0] MPF.init).vel.y ∧
    ((M641.coast (1/20))^[0 + 1] M641.highStart).vel.y ≤
      ((M641.coast (1/20))^[0] M641.highStart).vel.y := by
  have h50 : -50 ≤ MPF.init.vel.y := by decide
  refine ⟨claim_C2_amended.1 (1/20) MPF.init h50 3, ?_, ?_⟩
  · refine claim_C2_amended.2.1 (1/20) MPF.init 1 (by norm_num) h50 ?_ 0
      (by norm_num)
    intro k hk
    have hk0 : k = 0 := by omega
    subst hk0
    decide
  · refine claim_C2_amended.2.2 (1/20) M641.highStart 1 (by norm_num) ?_ 0
      (by norm_num)
    intro k hk
    have hk0 : k = 0 := by omega
    subst hk0
    decide

theorem groundScan_flatFloor (H : ℚ) (p : Vec3) (d : ℚ)
    (h1 : H ≤ p.y + 1/2) (h2 : p.y + 1/2 - H ≤ d) (h3 : -999 < H) :
    MPF.groundScan (flatFloor H) p d = (some H, H) := by
  have hray : ∀ a b : ℚ, flatFloor H ⟨p.x + a, p.y + 1/2, p.z + b⟩ d = some H := by
    intro a b
    unfold flatFloor
    rw [if_pos ⟨h1, h2⟩]
  have h3e : ((-999 : ℚ) < H) = True := eq_true h3
  have hHH : (H < H) = False := eq_false (lt_irrefl H)
  unfold MPF.groundScan MPF.ray_offsets
  simp only [List.foldl, hray, h3e, hHH, if_true, if_false]

theorem MPF.rest_tick (H x z d : ℚ) (hd : 0 ≤ d) (hH : -5 ≤ H + 9/10) :
    MPF.update (flatFloor H) noInput d (MPF.rest H x z) = MPF.rest H x z := by
  have hc0 : 0 ≤ MPF.dtClamp d := le_min hd (by norm_num)
  have hc1 : MPF.dtClamp d ≤ 1/20 := min_le_right _ _
  have hvy : MPF.gravVel (MPF.dtClamp d) 0 = -(MPF.GRAVITY * MPF.dtClamp d) := by
    unfold MPF.gravVel MPF.GRAVITY
    rw [zero_sub]
    exact max_eq_left (by linarith)
  have habs : 0 ≤ |(-(MPF.GRAVITY * MPF.dtClamp d)) * MPF.dtClamp d| :=
    abs_nonneg _
  have hscan :
      MPF.groundScan (flatFloor H) (MPF.rest H x z).pos
        (|(-(MPF.GRAVITY * MPF.dtClamp d)) * MPF.dtClamp d| + 3/2) =
      (some H, H) := by
    apply groundScan_flatFloor
    · show H ≤ H + 9/10 + 1/2
      linarith
    · show H + 9/10 + 1/2 - H ≤ _
      linarith
    · linarith
  have hsq : 0 ≤ MPF.GRAVITY * MPF.dtClamp d * MPF.dtClamp d :=
    mul_nonneg (mul_nonneg (by norm_num [MPF.GRAVITY]) hc0) hc0
  have hmove : MPF.movePhase noInput (MPF.dtClamp d) (MPF.rest H x z) =
      MPF.rest H x z := rfl
  unfold MPF.update MPF.preVoid MPF.groundPhase
  simp only [hmove]
  rw [show (MPF.rest H x z).vel.y = 0 from rfl, hvy, hscan]
  simp only []
  rw [if_pos]
  · show MPF.voidPhase (MPF.jumpPhase noInput _) = _
    have hjump : MPF.jumpPhase noInput
        { MPF.rest H x z with
            pos := ⟨(MPF.rest H x z).pos.x, H + 9/10, (MPF.rest H x z).pos.z⟩,
            vel := ⟨(MPF.rest H x z).vel.x, 0, (MPF.rest H x z).vel.z⟩,
            on_ground := true, jump_chain := 0 } = MPF.rest H x z := by
      unfold MPF.jumpPhase
      rw [if_neg]
      · rfl
      · intro hcon
        exact absurd hcon.1 (by decide)
    rw [hjump]
    unfold MPF.voidPhase
    rw [if_neg]
    show ¬ (MPF.rest H x z).pos.y < -5
    show ¬ H + 9/10 < -5
    linarith
  · constructor
    · show (MPF.rest H x z).pos.y + -(MPF.GRAVITY * MPF.dtClamp d) * MPF.dtClamp d ≤ H + 9/10
      show H + 9/10 + -(MPF.GRAVITY * MPF.dtClamp d) * MPF.dtClamp d ≤ H + 9/10
      nlinarith
    · show -(MPF.GRAVITY * MPF.dtClamp d) ≤ 0
      have : 0 ≤ MPF.GRAVITY * MPF.dtClamp d :=
        mul_nonneg (by norm_num [MPF.GRAVITY]) hc0
      linarith

theorem M641.groundPhase_flat_snap (H : ℚ) (t : M641.MarioState)
    (h1 : H ≤ t.pos.y + 1/2) (h2 : t.pos.y + 1/2 - H ≤ 3/2)
    (hv : t.vel.y ≤ 0) :
    M641.groundPhase (flatFloor H) t =
      { t with pos := ⟨t.pos.x, H + 9/10, t.pos.z⟩,
               vel := ⟨t.vel.x, 0, t.vel.z⟩,
               on_ground := true, jump_chain := 0 } := by
  unfold M641.groundPhase flatFloor
  rw [if_pos ⟨h1, h2⟩]
  show (if t.vel.y ≤ 0 then _ else t) = _
  rw [if_pos hv]

theorem M641.rest_tick_641 (H x z d : ℚ) (hd : 0 ≤ d)
    (hray : M641.GRAVITY * d * d ≤ 7/5) (hH : -5 ≤ H + 9/10) :
    M641.update (flatFloor H) M641.noInput d (M641.rest H x z) =
      M641.rest H x z := by
  have hgd : 0 ≤ M641.GRAVITY * d := mul_nonneg (by norm_num [M641.GRAVITY]) hd
  have hgdd : 0 ≤ M641.GRAVITY * d * d := mul_nonneg hgd hd
  have hmul : (0 - M641.GRAVITY * d) * d = -(M641.GRAVITY * d * d) := by ring
  have hmove : M641.movePhase M641.noInput d (M641.rest H x z) =
      M641.rest H x z := rfl
  have hsnap := M641.groundPhase_flat_snap H
    (M641.physPhase d (M641.rest H x z))
    (by show H ≤ H + 9/10 + (0 - M641.GRAVITY * d) * d + 1/2
        rw [hmul]
        linarith)
    (by show H + 9/10 + (0 - M641.GRAVITY * d) * d + 1/2 - H ≤ 3/2
        rw [hmul]
        linarith)
    (by show 0 - M641.GRAVITY * d ≤ 0
        linarith)
  unfold M641.update M641.preVoid
  rw [hmove, hsnap]
  have hjump : M641.jumpPhase M641.noInput
      { M641.physPhase d (M641.rest H x z) with
          pos := ⟨(M641.physPhase d (M641.rest H x z)).pos.x, H + 9/10,
                  (M641.physPhase d (M641.rest H x z)).pos.z⟩,
          vel := ⟨(M641.physPhase d (M641.rest H x z)).vel.x, 0,
                  (M641.physPhase d (M641.rest H x z)).vel.z⟩,
          on_ground := true, jump_chain := 0 } =
      { M641.physPhase d (M641.rest H x z) with
          pos := ⟨(M641.physPhase d (M641.rest H x z)).pos.x, H + 9/10,
                  (M641.physPhase d (M641.rest H x z)).pos.z⟩,
          vel := ⟨(M641.physPhase d (M641.rest H x z)).vel.x, 0,
                  (M641.physPhase d (M641.rest H x z)).vel.z⟩,
          on_ground := true, jump_chain := 0 } := by
    unfold M641.jumpPhase
    rw [if_neg]
    intro hcon
    exact absurd hcon.1 (by decide)
  rw [hjump]
  unfold M641.voidPhase
  rw [if_neg]
  · show _ = M641.rest H x z
    unfold M641.physPhase M641.rest
    simp
  · intro hcon
    exact absurd hcon.1 (not_lt.mpr (by show (-5 : ℚ) ≤ H + 9/10; linarith))

/-- Claim C4 (amended): ground-snap idempotence.  A body resting on a flat
collidable floor at height `H` (centre at `H + 0.9`, the half body height),
with zero velocity and grounded, is exactly reproduced by every further
input-free tick — in `mario64_physics_fixed.py` for any list of
non-negative per-tick Δt samples (its ray length scales with the fall), and
in `Mario641.0.py` for ticks whose fall stays within the fixed-length 1.5
ray's reach (`GRAVITY * dt² ≤ 7/5`) — as long as the rest height is not
itself below the void threshold. -/
theorem claim_C4_ground_snap_idempotent :
    (∀ (H x z : ℚ) (dts : List ℚ), (∀ d ∈ dts, 0 ≤ d) → -5 ≤ H + 9/10 →
      MPF.run (flatFloor H) noInput dts (MPF.rest H x z) = MPF.rest H x z) ∧
    (∀ (H x z : ℚ) (dts : List ℚ),
      (∀ d ∈ dts, 0 ≤ d ∧ M641.GRAVITY * d * d ≤ 7/5) → -5 ≤ H + 9/10 →
      M641.run (flatFloor H) M641.noInput dts (M641.rest H x z) =
        M641.rest H x z) := by
  constructor
  · intro H x z dts
    induction dts with
    | nil => intro _ _; rfl
    | cons d ds ih =>
        intro hd hH
        have h1 : MPF.update (flatFloor H) noInput d (MPF.rest H x z) =
            MPF.rest H x z :=
          MPF.rest_tick H x z d (hd d (List.mem_cons_self d ds)) hH
        have h2 := ih (fun e he => hd e (List.mem_cons_of_mem d he)) hH
        show MPF.run (flatFloor H) noInput ds
          (MPF.update (flatFloor H) noInput d (MPF.rest H x z)) = _
        rw [h1]
        exact h2
  · intro H x z dts
    induction dts with
    | nil => intro _ _; rfl
    | cons d ds ih =>
        intro hd hH
        have h1 : M641.update (flatFloor H) M641.noInput d (M641.rest H x z) =
            M641.rest H x z :=
          M641.rest_tick_641 H x z d (hd d (List.mem_cons_self d ds)).1
            (hd d (List.mem_cons_self d ds)).2 hH
        have h2 := ih (fun e he => hd e (List.mem_cons_of_mem d he)) hH
        show M641.run (flatFloor H) M641.noInput ds
          (M641.update (flatFloor H) M641.noInput d (M641.rest H x z)) = _
        rw [h1]
        exact h2

/-- Claim C4 (counterexample): ground-snap idempotence fails as universally
stated, in three ways.  In `mario64_physics_fixed.py`, for a floor below the
void threshold (H = -10, rest height -9.1) the snap is immediately followed
by the void respawn, which teleports the body to `(0,10,0)`.  In
`Mario641.0.py`, with Δt = 1 from rest at H = 0 the body falls 25 units in
one step, the fixed-length ray misses, and the void respawn teleports it to
`(0,10,0)`; from rest at H = 20 the ray also misses and the tick leaves the
body airborne falling at `vel.y = -25` instead of at rest. -/
theorem claim_C4_counterexample :
    (MPF.update (flatFloor (-10)) noInput (1/20) (MPF.rest (-10) 0 0) ≠
        MPF.rest (-10) 0 0 ∧
      (MPF.update (flatFloor (-10)) noInput (1/20)
        (MPF.rest (-10) 0 0)).pos.y = 10) ∧
    (M641.update (flatFloor 0) M641.noInput 1 (M641.rest 0 0 0) ≠
        M641.rest 0 0 0 ∧
      (M641.update (flatFloor 0) M641.noInput 1 (M641.rest 0 0 0)).pos.y =
        10) ∧
    (M641.update (flatFloor 20) M641.noInput 1 (M641.rest 20 0 0) ≠
        M641.rest 20 0 0 ∧
      (M641.update (flatFloor 20) M641.noInput 1 (M641.rest 20 0 0)).vel.y =
        -25 ∧
      (M641.update (flatFloor 20) M641.noInput 1
        (M641.rest 20 0 0)).on_ground = false) := by
  decide

theorem claim_C4_ground_snap_idempotent_witness :
    MPF.run (flatFloor 0) noInput [1/20, 1/10, 1] (MPF.rest 0 0 0) =
      MPF.rest 0 0 0 ∧
    M641.run (flatFloor 0) M641.noInput [1/20, 1/10] (M641.rest 0 0 0) =
      M641.rest 0 0 0 :=
  ⟨claim_C4_ground_snap_idempotent.1 0 0 0 [1/20, 1/10, 1] (by decide)
      (by norm_num),
    claim_C4_ground_snap_idempotent.2 0 0 0 [1/20, 1/10] (by decide)
      (by norm_num)⟩

/-- Claim C6 (amended): after a completed warp, in `Mario641.0.py` each known
course's entity set is enabled exactly when the course is the warp target
(an exclusive, total sweep); in `mario64_physics_fixed.py` the sweep instead
enables a course's entities exactly when it is the target or the courtyard,
so the courtyard group stays enabled alongside the target's. -/
theorem claim_C6_amended :
    (∀ (g : M641.GameState) (target course : String),
      course ∈ M641.known_courses →
        ((M641.warp_to_course target g).enabled course = true ↔
          course = target)) ∧
    (∀ (g : MPF.GameState) (target course : String),
      course ∈ MPF.known_courses →
        ((MPF.warp_to_course target g).enabled course = true ↔
          (course = target ∨ course = "courtyard"))) := by
  constructor
  · intro g target course hc
    show (if course ∈ M641.known_courses then decide (course = target)
      else g.enabled course) = true ↔ course = target
    rw [if_pos hc]
    exact decide_eq_true_iff
  · intro g target course hc
    show (if course ∈ MPF.known_courses
        then decide (course = target ∨ course = "courtyard")
        else g.enabled course) = true ↔
      (course = target ∨ course = "courtyard")
    rw [if_pos hc]
    exact decide_eq_true_iff

theorem claim_C6_amended_witness :
    ((M641.warp_to_course ("bobomb_battlefield") M641.gInit).enabled
        ("castle_grounds") = true ↔
      "castle_grounds" = "bobomb_battlefield") ∧
    ((MPF.warp_to_course ("bobomb_battlefield") MPF.gInit).enabled
        ("courtyard") = true ↔
      ("courtyard" = "bobomb_battlefield" ∨ "courtyard" = "courtyard")) :=
  ⟨claim_C6_amended.1 M641.gInit ("bobomb_battlefield") ("castle_grounds")
      (by decide),
    claim_C6_amended.2 MPF.gInit ("bobomb_battlefield") ("courtyard")
      (by decide)⟩

/-- Claim C7 (amended): every completed warp sets the current course field to
the target and moves the body to the one spawn point `(0,5,0)` that both
variants use for every course; `Mario641.0.py` also zeroes the velocity
vector, while `mario64_physics_fixed.py` leaves the velocity unchanged. -/
theorem claim_C7_amended :
    (∀ (g : M641.GameState) (target : String),
      (M641.warp_to_course target g).mario.current_course = target ∧
      (M641.warp_to_course target g).mario.pos = ⟨0, 5, 0⟩ ∧
      (M641.warp_to_course target g).mario.vel = ⟨0, 0, 0⟩) ∧
    (∀ (g : MPF.GameState) (target : String),
      (MPF.warp_to_course target g).mario.current_area = target ∧
      (MPF.warp_to_course target g).mario.pos = ⟨0, 5, 0⟩ ∧
      (MPF.warp_to_course target g).mario.vel = g.mario.vel) :=
  ⟨fun _ _ => ⟨rfl, rfl, rfl⟩, fun _ _ => ⟨rfl, rfl, rfl⟩⟩

theorem pickup_run_disabled (r : ℚ) (ds : List ℚ) (c : ℕ) :
    pickup_run r ds ⟨false, c⟩ = ⟨false, c⟩ := by
  induction ds with
  | nil => rfl
  | cons d ds ih =>
      show pickup_run r ds (pickup_tick r d ⟨false, c⟩) = _
      have h : pickup_tick r d ⟨false, c⟩ = ⟨false, c⟩ := by
        unfold pickup_tick
        rw [if_neg]
        intro hcon
        exact Bool.false_ne_true hcon.1
      rw [h]
      exact ih

theorem pickup_run_enabled_mono (r : ℚ) (ds : List ℚ) :
    ∀ s : PickupState, (pickup_run r ds s).enabled = true →
      s.enabled = true := by
  induction ds with
  | nil => intro _ h; exact h
  | cons d ds ih =>
      intro s h
      have h2 := ih (pickup_tick r d s) h
      by_cases hc : s.enabled = true ∧ d < r
      · exact hc.1
      · unfold pickup_tick at h2
        rw [if_neg hc] at h2
        exact h2

/-- Claim C8: a pickup whose distance sample stays inside the trigger radius
for any non-empty run of consecutive ticks is collected exactly once: the
final state is disabled with the counter incremented by exactly 1, and the
enabled flag is monotone (no run of ticks ever turns it back on). -/
theorem claim_C8_pickup_once :
    ∀ (radius : ℚ) (dists : List ℚ) (c : ℕ),
      dists ≠ [] → (∀ d ∈ dists, d < radius) →
      (pickup_run radius dists ⟨true, c⟩ = ⟨false, c + 1⟩ ∧
        ∀ s : PickupState,
          (pickup_run radius dists s).enabled = true → s.enabled = true) := by
  intro r ds c hne hin
  refine ⟨?_, pickup_run_enabled_mono r ds⟩
  cases ds with
  | nil => exact absurd rfl hne
  | cons d ds =>
      show pickup_run r ds (pickup_tick r d ⟨true, c⟩) = _
      have h : pickup_tick r d ⟨true, c⟩ = ⟨false, c + 1⟩ := by
        unfold pickup_tick
        rw [if_pos ⟨rfl, hin d (List.mem_cons_self d ds)⟩]
      rw [h]
      exact pickup_run_disabled r ds (c + 1)

theorem claim_C8_pickup_once_witness :
    pickup_run (6/5) [1, 1, 1] ⟨true, 0⟩ = ⟨false, 0 + 1⟩ :=
  (claim_C8_pickup_once (6/5) [1, 1, 1] 0 (by decide) (by decide)).1

theorem MPF.movePhase_area (inp : Input) (dt : ℚ) (s : MPF.MarioState) :
    (MPF.movePhase inp dt s).current_area = s.current_area := by
  rcases inp with ⟨mv, sh, sp⟩
  cases mv <;> rfl

theorem MPF.groundPhase_area (rc : RayCast) (inp : Input) (dt : ℚ)
    (s : MPF.MarioState) :
    (MPF.groundPhase rc inp dt s).current_area = s.current_area := by
  simp only [MPF.groundPhase]
  split
  · split
    · exact MPF.movePhase_area inp (MPF.dtClamp dt) s
    · exact MPF.movePhase_area inp (MPF.dtClamp dt) s
  · exact MPF.movePhase_area inp (MPF.dtClamp dt) s

theorem MPF.jumpPhase_area (inp : Input) (t : MPF.MarioState) :
    (MPF.jumpPhase inp t).current_area = t.current_area := by
  unfold MPF.jumpPhase
  split_ifs <;> rfl

theorem MPF.preVoid_area (rc : RayCast) (inp : Input) (dt : ℚ)
    (s : MPF.MarioState) :
    (MPF.preVoid rc inp dt s).current_area = s.current_area := by
  unfold MPF.preVoid
  rw [MPF.jumpPhase_area, MPF.groundPhase_area]

theorem M641.movePhase_course (inp : M641.Input) (dt : ℚ)
    (s : M641.MarioState) :
    (M641.movePhase inp dt s).current_course = s.current_course := by
  rcases inp with ⟨mv, b, sh, sp⟩
  cases mv <;> rfl

theorem M641.groundPhase_course (rc : RayCast) (t : M641.MarioState) :
    (M641.groundPhase rc t).current_course = t.current_course := by
  unfold M641.groundPhase
  split
  · split <;> rfl
  · rfl

theorem M641.jumpPhase_course (inp : M641.Input) (t : M641.MarioState) :
    (M641.jumpPhase inp t).current_course = t.current_course := by
  unfold M641.jumpPhase
  split_ifs <;> rfl

theorem M641.preVoid_course (rc : RayCast) (inp : M641.Input) (dt : ℚ)
    (s : M641.MarioState) :
    (M641.preVoid rc inp dt s).current_course = s.current_course := by
  unfold M641.preVoid
  rw [M641.jumpPhase_course, M641.groundPhase_course,
    show ∀ t : M641.MarioState,
        (M641.physPhase dt t).current_course = t.current_course
      from fun _ => rfl,
    M641.movePhase_course]

/-- Claim C9 (amended): whenever the tick's physics leaves the body below
the void threshold -5, the tick ends by teleporting it to the safe respawn
point `(0,10,0)` with zero velocity.  In `mario64_physics_fixed.py` this
holds for every course the body may be in; in `Mario641.0.py` it holds in
every course except the basement, where the recovery is skipped and the tick
leaves the physics result untouched. -/
theorem claim_C9_amended :
    (∀ (rc : RayCast) (inp : Input) (dt : ℚ) (s : MPF.MarioState),
      (MPF.preVoid rc inp dt s).pos.y < -5 →
        (MPF.update rc inp dt s).pos = ⟨0, 10, 0⟩ ∧
        (MPF.update rc inp dt s).vel = ⟨0, 0, 0⟩ ∧
        (MPF.update rc inp dt s).current_area = s.current_area) ∧
    (∀ (rc : RayCast) (inp : M641.Input) (dt : ℚ) (s : M641.MarioState),
      (M641.preVoid rc inp dt s).pos.y < -5 →
      s.current_course ≠ "basement" →
        (M641.update rc inp dt s).pos = ⟨0, 10, 0⟩ ∧
        (M641.update rc inp dt s).vel = ⟨0, 0, 0⟩) ∧
    (∀ (rc : RayCast) (inp : M641.Input) (dt : ℚ) (s : M641.MarioState),
      s.current_course = "basement" →
        M641.update rc inp dt s = M641.preVoid rc inp dt s) := by
  refine ⟨?_, ?_, ?_⟩
  · intro rc inp dt s h
    unfold MPF.update MPF.voidPhase
    rw [if_pos h]
    exact ⟨rfl, rfl, MPF.preVoid_area rc inp dt s⟩
  · intro rc inp dt s h hb
    unfold M641.update M641.voidPhase
    rw [if_pos ⟨h, by rw [M641.preVoid_course]; exact hb⟩]
    exact ⟨rfl, rfl⟩
  · intro rc inp dt s h
    unfold M641.update M641.voidPhase
    rw [if_neg]
    intro hcon
    exact hcon.2 (by rw [M641.preVoid_course, h])

theorem claim_C9_amended_witness :
    ((MPF.update noGround noInput 0 MPF.deepState).pos = ⟨0, 10, 0⟩ ∧
      (MPF.update noGround noInput 0 MPF.deepState).vel = ⟨0, 0, 0⟩ ∧
      (MPF.update noGround noInput 0 MPF.deepState).current_area =
        MPF.deepState.current_area) ∧
    ((M641.update noGround M641.noInput 0
        (⟨⟨0, -10, 0⟩, ⟨0, 0, 0⟩, false, 0, 0, 0, 0, "castle_grounds"⟩ :
          M641.MarioState)).pos = ⟨0, 10, 0⟩ ∧
      (M641.update noGround M641.noInput 0
        (⟨⟨0, -10, 0⟩, ⟨0, 0, 0⟩, false, 0, 0, 0, 0, "castle_grounds"⟩ :
          M641.MarioState)).vel = ⟨0, 0, 0⟩) ∧
    M641.update noGround M641.noInput 0 M641.basementState =
      M641.preVoid noGround M641.noInput 0 M641.basementState :=
  ⟨claim_C9_amended.1 noGround noInput 0 MPF.deepState (by decide),
    claim_C9_amended.2.1 noGround M641.noInput 0
      (⟨⟨0, -10, 0⟩, ⟨0, 0, 0⟩, false, 0, 0, 0, 0, "castle_grounds"⟩ :
        M641.MarioState) (by decide) (by decide),
    claim_C9_amended.2.2 noGround M641.noInput 0 M641.basementState rfl⟩

theorem MPF.movePhase_chain (inp : Input) (dt : ℚ) (s : MPF.MarioState) :
    (MPF.movePhase inp dt s).jump_chain = s.jump_chain ∧
    (MPF.movePhase inp dt s).on_ground = s.on_ground := by
  rcases inp with ⟨mv, sh, sp⟩
  cases mv <;> exact ⟨rfl, rfl⟩

theorem MPF.groundPhase_ground_chain (rc : RayCast) (inp : Input) (dt : ℚ)
    (s : MPF.MarioState) :
    (MPF.groundPhase rc inp dt s).on_ground = true →
    (MPF.groundPhase rc inp dt s).jump_chain = 0 := by
  simp only [MPF.groundPhase]
  split
  · split
    · intro _
      rfl
    · intro hcon
      exact Bool.noConfusion hcon
  · intro hcon
    exact Bool.noConfusion hcon

theorem MPF.groundPhase_chain_cases (rc : RayCast) (inp : Input) (dt : ℚ)
    (s : MPF.MarioState) :
    (MPF.groundPhase rc inp dt s).jump_chain = 0 ∨
    (MPF.groundPhase rc inp dt s).jump_chain = s.jump_chain := by
  simp only [MPF.groundPhase]
  split
  · split
    · exact Or.inl rfl
    · exact Or.inr (MPF.movePhase_chain inp (MPF.dtClamp dt) s).1
  · exact Or.inr (MPF.movePhase_chain inp (MPF.dtClamp dt) s).1

theorem MPF.jumpPhase_cases (inp : Input) (t : MPF.MarioState) :
    MPF.jumpPhase inp t = t ∨
    (t.on_ground = true ∧
      (MPF.jumpPhase inp t).jump_chain = t.jump_chain + 1 ∧
      (MPF.jumpPhase inp t).on_ground = false) := by
  unfold MPF.jumpPhase
  split_ifs with h h2
  · exact Or.inr ⟨h.2.1, rfl, rfl⟩
  · exact Or.inr ⟨h.2.1, rfl, rfl⟩
  · exact Or.inl rfl

theorem MPF.voidPhase_chain (t : MPF.MarioState) :
    (MPF.voidPhase t).jump_chain = t.jump_chain ∧
    (MPF.voidPhase t).on_ground = t.on_ground := by
  unfold MPF.voidPhase
  split_ifs <;> exact ⟨rfl, rfl⟩

theorem MPF.chainInv_step (rc : RayCast) (inp : Input) (dt : ℚ)
    (s : MPF.MarioState) (h : MPF.ChainInv s) :
    MPF.ChainInv (MPF.update rc inp dt s) := by
  have hginv : MPF.ChainInv (MPF.groundPhase rc inp dt s) := by
    constructor
    · rcases MPF.groundPhase_chain_cases rc inp dt s with h0 | hs
      · rw [h0]
        exact Nat.zero_le 1
      · rw [hs]
        exact h.1
    · exact MPF.groundPhase_ground_chain rc inp dt s
  have hj : MPF.ChainInv (MPF.jumpPhase inp (MPF.groundPhase rc inp dt s)) := by
    rcases MPF.jumpPhase_cases inp (MPF.groundPhase rc inp dt s) with
      he | ⟨hon, hch, hogr⟩
    · rw [he]
      exact hginv
    · constructor
      · rw [hch, hginv.2 hon]
      · intro hcon
        rw [hogr] at hcon
        exact Bool.noConfusion hcon
  have hv := MPF.voidPhase_chain (MPF.jumpPhase inp (MPF.groundPhase rc inp dt s))
  constructor
  · rw [show (MPF.update rc inp dt s).jump_chain =
        (MPF.voidPhase (MPF.jumpPhase inp (MPF.groundPhase rc inp dt s))).jump_chain
      from rfl, hv.1]
    exact hj.1
  · intro hcon
    rw [show (MPF.update rc inp dt s).on_ground =
        (MPF.voidPhase (MPF.jumpPhase inp (MPF.groundPhase rc inp dt s))).on_ground
      from rfl, hv.2] at hcon
    rw [show (MPF.update rc inp dt s).jump_chain =
        (MPF.voidPhase (MPF.jumpPhase inp (MPF.groundPhase rc inp dt s))).jump_chain
      from rfl, hv.1]
    exact hj.2 hcon

theorem MPF.chainInv_reachable (s : MPF.MarioState) (h : MPF.Reachable s) :
    MPF.ChainInv s := by
  induction h with
  | init => exact ⟨Nat.zero_le 1, fun hcon => Bool.noConfusion hcon⟩
  | step rc inp dt hs ih => exact MPF.chainInv_step rc inp dt _ ih

theorem MPF.impulse_not_double (rc : RayCast) (inp : Input) (dt : ℚ)
    (s : MPF.MarioState) :
    MPF.jumpImpulseUsed rc inp dt s ≠ some (MPF.JUMP_POWER * (6/5)) := by
  simp only [MPF.jumpImpulseUsed]
  by_cases h : inp.space = true ∧
      (MPF.groundPhase rc inp dt s).on_ground = true ∧
      (MPF.groundPhase rc inp dt s).jump_chain < 2
  · rw [if_pos h, MPF.groundPhase_ground_chain rc inp dt s h.2.1,
      if_neg (by decide)]
    intro hcon
    have h2 := Option.some.inj hcon
    norm_num [MPF.JUMP_POWER] at h2
  · rw [if_neg h]
    exact fun hcon => Option.noConfusion hcon

theorem M641.prePhys_chain (inp : M641.Input) (dt : ℚ) (s : M641.MarioState) :
    (M641.physPhase dt (M641.movePhase inp dt s)).jump_chain = s.jump_chain ∧
    (M641.physPhase dt (M641.movePhase inp dt s)).on_ground = s.on_ground := by
  rcases inp with ⟨mv, b, sh, sp⟩
  cases mv <;> exact ⟨rfl, rfl⟩

theorem M641.groundPhase_ground_chain_641 (rc : RayCast) (t : M641.MarioState)
    (hinv : t.on_ground = true → t.jump_chain = 0) :
    (M641.groundPhase rc t).on_ground = true →
    (M641.groundPhase rc t).jump_chain = 0 := by
  unfold M641.groundPhase
  split
  · split_ifs
    · intro _
      rfl
    · exact hinv
  · intro hcon
    exact Bool.noConfusion hcon

theorem M641.groundPhase_chain_cases_641 (rc : RayCast) (t : M641.MarioState) :
    (M641.groundPhase rc t).jump_chain = 0 ∨
    (M641.groundPhase rc t).jump_chain = t.jump_chain := by
  unfold M641.groundPhase
  split
  · split_ifs
    · exact Or.inl rfl
    · exact Or.inr rfl
  · exact Or.inr rfl

theorem M641.jumpPhase_cases_641 (inp : M641.Input) (t : M641.MarioState) :
    M641.jumpPhase inp t = t ∨
    (t.on_ground = true ∧
      (M641.jumpPhase inp t).jump_chain = t.jump_chain + 1 ∧
      (M641.jumpPhase inp t).on_ground = false) := by
  unfold M641.jumpPhase
  split_ifs with h h2
  · exact Or.inr ⟨h.2.1, rfl, rfl⟩
  · exact Or.inr ⟨h.2.1, rfl, rfl⟩
  · exact Or.inl rfl

theorem M641.voidPhase_chain_641 (t : M641.MarioState) :
    (M641.voidPhase t).jump_chain = t.jump_chain ∧
    (M641.voidPhase t).on_ground = t.on_ground := by
  unfold M641.voidPhase
  split_ifs <;> exact ⟨rfl, rfl⟩

theorem M641.chainInv_step_641 (rc : RayCast) (inp : M641.Input) (dt : ℚ)
    (s : M641.MarioState) (h : M641.ChainInv s) :
    M641.ChainInv (M641.update rc inp dt s) := by
  have hp := M641.prePhys_chain inp dt s
  have hpinv : M641.ChainInv (M641.physPhase dt (M641.movePhase inp dt s)) := by
    constructor
    · rw [hp.1]
      exact h.1
    · intro hc
      rw [hp.1]
      exact h.2 (by rw [← hp.2]; exact hc)
  have hginv : M641.ChainInv
      (M641.groundPhase rc (M641.physPhase dt (M641.movePhase inp dt s))) := by
    constructor
    · rcases M641.groundPhase_chain_cases_641 rc
        (M641.physPhase dt (M641.movePhase inp dt s)) with h0 | hs
      · rw [h0]
        exact Nat.zero_le 1
      · rw [hs]
        exact hpinv.1
    · exact M641.groundPhase_ground_chain_641 rc _ hpinv.2
  have hj : M641.ChainInv (M641.jumpPhase inp
      (M641.groundPhase rc (M641.physPhase dt (M641.movePhase inp dt s)))) := by
    rcases M641.jumpPhase_cases_641 inp
      (M641.groundPhase rc (M641.physPhase dt (M641.movePhase inp dt s))) with
      he | ⟨hon, hch, hogr⟩
    · rw [he]
      exact hginv
    · constructor
      · rw [hch, hginv.2 hon]
      · intro hcon
        rw [hogr] at hcon
        exact Bool.noConfusion hcon
  have hv := M641.voidPhase_chain_641 (M641.jumpPhase inp
    (M641.groundPhase rc (M641.physPhase dt (M641.movePhase inp dt s))))
  constructor
  · rw [show (M641.update rc inp dt s).jump_chain =
        (M641.voidPhase (M641.jumpPhase inp (M641.groundPhase rc
          (M641.physPhase dt (M641.movePhase inp dt s))))).jump_chain
      from rfl, hv.1]
    exact hj.1
  · intro hcon
    rw [show (M641.update rc inp dt s).on_ground =
        (M641.voidPhase (M641.jumpPhase inp (M641.groundPhase rc
          (M641.physPhase dt (M641.movePhase inp dt s))))).on_ground
      from rfl, hv.2] at hcon
    rw [show (M641.update rc inp dt s).jump_chain =
        (M641.voidPhase (M641.jumpPhase inp (M641.groundPhase rc
          (M641.physPhase dt (M641.movePhase inp dt s))))).jump_chain
      from rfl, hv.1]
    exact hj.2 hcon

theorem M641.chainInv_reachable_641 (s : M641.MarioState) (h : M641.Reachable s) :
    M641.ChainInv s := by
  induction h with
  | init => exact ⟨Nat.zero_le 1, fun hcon => Bool.noConfusion hcon⟩
  | step rc inp dt hs ih => exact M641.chainInv_step_641 rc inp dt _ ih

theorem M641.impulse_not_double_641 (rc : RayCast) (inp : M641.Input) (dt : ℚ)
    (s : M641.MarioState) (h : M641.ChainInv s) :
    M641.jumpImpulseUsed rc inp dt s ≠ some (M641.JUMP_POWER * (6/5)) := by
  simp only [M641.jumpImpulseUsed]
  by_cases hc : inp.space = true ∧
      (M641.groundPhase rc
        (M641.physPhase dt (M641.movePhase inp dt s))).on_ground = true ∧
      (M641.groundPhase rc
        (M641.physPhase dt (M641.movePhase inp dt s))).jump_chain < 2
  · have hg : (M641.groundPhase rc
        (M641.physPhase dt (M641.movePhase inp dt s))).jump_chain = 0 := by
      apply M641.groundPhase_ground_chain_641 rc _ _ hc.2.1
      intro hon
      rw [(M641.prePhys_chain inp dt s).1]
      exact h.2 (by rw [← (M641.prePhys_chain inp dt s).2]; exact hon)
    rw [if_pos hc, hg, if_neg (by decide)]
    intro hcon
    have h2 := Option.some.inj hcon
    norm_num [M641.JUMP_POWER] at h2
  · rw [if_neg hc]
    exact fun hcon => Option.noConfusion hcon

/-- Claim C10: in every state reachable from the constructed Mario — under
arbitrary per-tick inputs, Δt samples, and scene geometry — the jump-chain
counter is at most 1 and is 0 whenever the body is grounded; consequently
the jump check only ever fires with counter 0, and the elevated second-jump
impulse `JUMP_POWER * 1.2` is never the impulse the jump block writes.
This holds in both `mario64_physics_fixed.py` and `Mario641.0.py`. -/
theorem claim_C10_jump_chain_invariant :
    (∀ s : MPF.MarioState, MPF.Reachable s →
      s.jump_chain ≤ 1 ∧ (s.on_ground = true → s.jump_chain = 0)) ∧
    (∀ (rc : RayCast) (inp : Input) (dt : ℚ) (s : MPF.MarioState),
      MPF.Reachable s →
      MPF.jumpImpulseUsed rc inp dt s ≠ some (MPF.JUMP_POWER * (6/5))) ∧
    (∀ s : M641.MarioState, M641.Reachable s →
      s.jump_chain ≤ 1 ∧ (s.on_ground = true → s.jump_chain = 0)) ∧
    (∀ (rc : RayCast) (inp : M641.Input) (dt : ℚ) (s : M641.MarioState),
      M641.Reachable s →
      M641.jumpImpulseUsed rc inp dt s ≠ some (M641.JUMP_POWER * (6/5))) :=
  ⟨fun s h => MPF.chainInv_reachable s h,
    fun rc inp dt s _ => MPF.impulse_not_double rc inp dt s,
    fun s h => M641.chainInv_reachable_641 s h,
    fun rc inp dt s h =>
      M641.impulse_not_double_641 rc inp dt s (M641.chainInv_reachable_641 s h)⟩

theorem claim_C10_jump_chain_invariant_witness :
    (MPF.init.jump_chain ≤ 1 ∧
      (MPF.init.on_ground = true → MPF.init.jump_chain = 0)) ∧
    MPF.jumpImpulseUsed noGround spaceInput (1/20) MPF.init ≠
      some (MPF.JUMP_POWER * (6/5)) ∧
    (M641.init.jump_chain ≤ 1 ∧
      (M641.init.on_ground = true → M641.init.jump_chain = 0)) ∧
    M641.jumpImpulseUsed noGround M641.spaceInput (1/20) M641.init ≠
      some (M641.JUMP_POWER * (6/5)) :=
  ⟨claim_C10_jump_chain_invariant.1 MPF.init MPF.Reachable.init,
    claim_C10_jump_chain_invariant.2.1 noGround spaceInput (1/20) MPF.init
      MPF.Reachable.init,
    claim_C10_jump_chain_invariant.2.2.1 M641.init M641.Reachable.init,
    claim_C10_jump_chain_invariant.2.2.2 noGround M641.spaceInput (1/20)
      M641.init M641.Reachable.init⟩

end SymbolicClaims

end SM64
